import Mathlib

/-!
# DecalInstanceProjector: a shallow embedding of the scattering algorithm

Source: `source/Private/DecalInstancer/DecalInstanceProjector.cpp` and
`source/Public/DecalInstancer/DecalInstanceProjector.h`.

Modelling conventions.

* `float` values are idealised as exact rationals (`ℚ`): no rounding, no NaN.
* Actor pointers are indices into the world's actor table (`none` is `nullptr`).
* The host engine is an `Engine` record of oracles.  Every call whose answer the
  engine chooses (overlap query, raycast, random draw, spawn request) advances
  `UWorld.Clock`, and each oracle receives the clock value of the call, so one
  `Engine` can describe any sequence of overlap results, raycast results,
  random draws and factory outcomes.
* Overlap and raycast queries are recorded, in order, in `UWorld.Queries`;
  `UE_LOG` lines are recorded in `UWorld.Output`.
* Nothing but the code itself acts on the world during a call: an actor keeps
  the transform it was spawned with and is destroyed only by `Destroy`.
-/

namespace DecalInstancer

/-! ## Engine value types -/

/-- Engine type `FVector`. -/
structure FVector where
  X : ℚ
  Y : ℚ
  Z : ℚ
deriving DecidableEq

/-- Engine type `FVector2D`. -/
structure FVector2D where
  X : ℚ
  Y : ℚ
deriving DecidableEq

/-- Engine type `FRotator`; the constructor order is pitch, yaw, roll. -/
structure FRotator where
  Pitch : ℚ
  Yaw : ℚ
  Roll : ℚ
deriving DecidableEq

/-- Componentwise sum, `A + B`. -/
def FVector.add (A B : FVector) : FVector := ⟨A.X + B.X, A.Y + B.Y, A.Z + B.Z⟩

/-- Componentwise difference, `A - B`. -/
def FVector.sub (A B : FVector) : FVector := ⟨A.X - B.X, A.Y - B.Y, A.Z - B.Z⟩

/-- Scaling by a scalar, `A * S`. -/
def FVector.scale (A : FVector) (S : ℚ) : FVector := ⟨A.X * S, A.Y * S, A.Z * S⟩

/-- The one-argument constructor `FVector(S)`: all three components equal. -/
def FVector.splat (S : ℚ) : FVector := ⟨S, S, S⟩

/-- Engine function `FVector::DistSquared`. -/
def FVector.DistSquared (A B : FVector) : ℚ :=
  (B.X - A.X) * (B.X - A.X) + (B.Y - A.Y) * (B.Y - A.Y) + (B.Z - A.Z) * (B.Z - A.Z)

/-- The test `FVector::Distance(A, B) < M`, where `Distance` is the square root
of `DistSquared`: a square root is non-negative, so the test fails for `M ≤ 0`,
and for `0 < M` it is the comparison of the squares. -/
def FVector.DistanceLess (A B : FVector) (M : ℚ) : Bool :=
  decide (0 < M ∧ FVector.DistSquared A B < M * M)

/-- Engine function `FMath::Lerp(A, B, Alpha)`. -/
def FMath.Lerp (A B Alpha : ℚ) : ℚ := A + Alpha * (B - A)

/-- Engine function `FMath::Clamp(X, Min, Max)`. -/
def FMath.Clamp (X Min Max : ℚ) : ℚ :=
  if X < Min then Min else if X < Max then X else Max

/-! ## World, actors, queries -/

/-- An `AActor*`: an index into the actor table, or `nullptr`. -/
abbrev ActorPtr := Option Nat

/-- The part of an actor object that the projector reads or writes. -/
structure AActor where
  Location : FVector
  Rotation : FRotator
  Scale3D : FVector
  bDestroyed : Bool
deriving DecidableEq

/-- Engine type `FHitResult`, with the fields the code reads. -/
structure FHitResult where
  Location : FVector
  Normal : FVector
  Distance : ℚ
deriving DecidableEq

/-- Engine type `FCollisionQueryParams`: the ignored actors of a query.
`bIgnoreSelf` records `AddIgnoredActor(this)`. -/
structure FCollisionQueryParams where
  bIgnoreSelf : Bool
  IgnoredActors : List ActorPtr
deriving DecidableEq

/-- A spatial query issued to the world. -/
inductive Query where
  | Overlap (Pos : FVector) (Rot : FRotator) (Extent : FVector) (Params : FCollisionQueryParams)
  | LineTrace (Start End : FVector) (Params : FCollisionQueryParams)
deriving DecidableEq

/-- The `UE_LOG` lines of `SpawnActors`. -/
inductive LogLine where
  | NoAssetSet
  | NoOverlappingActors
  | FoundOverlapping (Num : Nat)
  | Spawned (Num : Nat)
deriving DecidableEq

/-- The world as the projector sees it. -/
structure UWorld where
  Actors : List AActor
  Clock : Nat
  Queries : List Query
  Output : List LogLine
deriving DecidableEq

/-- The host engine: everything the code calls and does not define. The `Nat`
argument of an oracle is the clock value at the call. -/
structure Engine where
  OverlapMultiByChannel : Nat → FVector → FRotator → FVector → FCollisionQueryParams → List ActorPtr
  LineTraceSingleByChannel : Nat → FVector → FVector → FCollisionQueryParams → Option FHitResult
  FRand : Nat → ℚ
  SpawnActor : Nat → FVector → FRotator → Bool
  RotateVector : FRotator → FVector → FVector
  RotatorVector : FRotator → FVector
  VectorRotation : FVector → FRotator

/-- The projector actor: box component, properties of the header, spawn list. -/
structure ADecalInstanceProjector where
  BoxExtent : FVector
  BoxCenter : FVector
  BoxRotation : FRotator
  ActorToSpawn : Option Nat
  StaticMeshToSpawn : Option Nat
  SpawnedMeshMaterial : Option Nat
  SpawnDensity : Int
  ScaleRange : FVector2D
  RotationRange : FVector
  SurfaceOffset : ℚ
  IntersectionBias : ℚ
  MinSpawnDistance : ℚ
  bAutoUpdateInEditor : Bool
  SpawnedActors : List ActorPtr
deriving DecidableEq

/-- The projector together with the world it lives in. -/
structure State where
  Self : ADecalInstanceProjector
  World : UWorld
deriving DecidableEq

/-- Engine function `IsValid`: non-null, in the table, not destroyed. -/
def UWorld.IsValid (W : UWorld) : ActorPtr → Bool
  | none => false
  | some I =>
    match W.Actors[I]? with
    | none => false
    | some A => !A.bDestroyed

/-- Whether actor `I` exists and has been destroyed. -/
def UWorld.IsDestroyed (W : UWorld) (I : Nat) : Bool :=
  match W.Actors[I]? with
  | none => false
  | some A => A.bDestroyed

/-- Engine function `AActor::GetActorLocation`. -/
def UWorld.GetActorLocation (W : UWorld) (I : Nat) : FVector :=
  match W.Actors[I]? with
  | none => ⟨0, 0, 0⟩
  | some A => A.Location

/-- Engine function `AActor::Destroy`. -/
def UWorld.Destroy (W : UWorld) (I : Nat) : UWorld :=
  match W.Actors[I]? with
  | none => W
  | some A => { W with Actors := W.Actors.set I { A with bDestroyed := true } }

/-- Engine function `AActor::SetActorScale3D`. -/
def UWorld.SetActorScale3D (W : UWorld) (I : Nat) (S : FVector) : UWorld :=
  match W.Actors[I]? with
  | none => W
  | some A => { W with Actors := W.Actors.set I { A with Scale3D := S } }

/-- Engine function `FMath::FRand`: the next unit draw. -/
def FRand (E : Engine) (W : UWorld) : ℚ × UWorld :=
  (E.FRand W.Clock, { W with Clock := W.Clock + 1 })

/-- Engine function `FMath::RandRange(Min, Max)` on floats:
`Min + (Max - Min) * FRand()`. -/
def RandRange (E : Engine) (Min Max : ℚ) (W : UWorld) : ℚ × UWorld :=
  ((Min + (Max - Min) * (FRand E W).1), (FRand E W).2)

/-- Engine function `UWorld::LineTraceSingleByChannel`: the query is recorded
and answered by the oracle. -/
def LineTraceSingleByChannel (E : Engine) (Start End : FVector)
    (Params : FCollisionQueryParams) (W : UWorld) : Option FHitResult × UWorld :=
  (E.LineTraceSingleByChannel W.Clock Start End Params,
    { W with Clock := W.Clock + 1, Queries := W.Queries ++ [Query.LineTrace Start End Params] })

/-- Engine function `UWorld::OverlapMultiByChannel`: the query is recorded and
answered by the oracle with the actor of each overlap result. -/
def OverlapMultiByChannel (E : Engine) (Pos : FVector) (Rot : FRotator) (Extent : FVector)
    (Params : FCollisionQueryParams) (W : UWorld) : List ActorPtr × UWorld :=
  (E.OverlapMultiByChannel W.Clock Pos Rot Extent Params,
    { W with Clock := W.Clock + 1, Queries := W.Queries ++ [Query.Overlap Pos Rot Extent Params] })

/-- Engine function `UWorld::SpawnActor` with `AlwaysSpawn`: on success a new
actor with the requested location and rotation and unit scale is appended to the
actor table and its pointer is returned; on failure `nullptr`. -/
def SpawnActor (E : Engine) (Location : FVector) (Rotation : FRotator) (W : UWorld) :
    ActorPtr × UWorld :=
  if E.SpawnActor W.Clock Location Rotation then
    (some W.Actors.length,
      { W with Clock := W.Clock + 1,
               Actors := W.Actors ++ [⟨Location, Rotation, FVector.splat 1, false⟩] })
  else
    (none, { W with Clock := W.Clock + 1 })

/-! ## The projector's methods -/

/-- Body of the loop of `ClearSpawnedActors` (lines 226-232). -/
def ClearStep (W : UWorld) (SpawnedActor : ActorPtr) : UWorld :=
  match SpawnedActor with
  | none => W
  | some I => if W.IsValid (some I) then W.Destroy I else W

/-- Method `ADecalInstanceProjector::ClearSpawnedActors` (lines 224-234). -/
def ClearSpawnedActors (S : State) : State :=
  { Self := { S.Self with SpawnedActors := [] },
    World := S.Self.SpawnedActors.foldl ClearStep S.World }

/-- Constant `NumRays` of `CalculateGeometryComplexity`. -/
def NumRays : Nat := 8

/-- Constant `TraceDistance` of `CalculateGeometryComplexity`. -/
def TraceDistance : ℚ := 100

/-- End point of ray `I` of the fan (lines 246-251). -/
def FanEnd (E : Engine) (Location : FVector) (I : Nat) : FVector :=
  Location.add ((E.RotatorVector ⟨0, (360 / (NumRays : ℚ)) * (I : ℚ), 0⟩).scale TraceDistance)

/-- The loop of `CalculateGeometryComplexity` (lines 244-261): `Remaining` more
rays starting with ray `I`, accumulating `HitCount` and `TotalDistance`. -/
def FanLoop (E : Engine) (Location : FVector) :
    Nat → Nat → Nat → ℚ → UWorld → Nat × ℚ × UWorld
  | 0, _, HitCount, TotalDistance, W => (HitCount, TotalDistance, W)
  | Remaining + 1, I, HitCount, TotalDistance, W =>
    let Trace := LineTraceSingleByChannel E Location (FanEnd E Location I) ⟨true, []⟩ W
    match Trace.1 with
    | some Hit =>
      FanLoop E Location Remaining (I + 1) (HitCount + 1) (TotalDistance + Hit.Distance) Trace.2
    | none => FanLoop E Location Remaining (I + 1) HitCount TotalDistance Trace.2

/-- The score computed from the loop's counters (lines 263-270). -/
def ComplexityScore (HitCount : Nat) (TotalDistance : ℚ) : ℚ :=
  if HitCount = 0 then 0
  else
    ((HitCount : ℚ) / (NumRays : ℚ)
      + (1 - FMath.Clamp ((TotalDistance / (HitCount : ℚ)) / TraceDistance) 0 1)) * (1 / 2)

/-- Method `ADecalInstanceProjector::CalculateGeometryComplexity` (lines 236-271).
The parameter `OverlappingActors` is not used by the body. -/
def CalculateGeometryComplexity (E : Engine) (Location : FVector)
    (_OverlappingActors : List Nat) (W : UWorld) : ℚ × UWorld :=
  let R := FanLoop E Location NumRays 0 0 0 W
  (ComplexityScore R.1 R.2.1, R.2.2)

/-- The loop of `IsValidSpawnLocation` (lines 275-286) over the spawn list. -/
def IsValidSpawnLocationLoop (W : UWorld) (MinSpawnDistance : ℚ) (Location : FVector) :
    List ActorPtr → Bool
  | [] => true
  | SpawnedActor :: Rest =>
    match SpawnedActor with
    | none => IsValidSpawnLocationLoop W MinSpawnDistance Location Rest
    | some I =>
      if W.IsValid (some I) then
        if FVector.DistanceLess Location (W.GetActorLocation I) MinSpawnDistance then false
        else IsValidSpawnLocationLoop W MinSpawnDistance Location Rest
      else IsValidSpawnLocationLoop W MinSpawnDistance Location Rest

/-- Method `ADecalInstanceProjector::IsValidSpawnLocation` (lines 273-287). -/
def IsValidSpawnLocation (S : State) (Location : FVector) : Bool :=
  IsValidSpawnLocationLoop S.World S.Self.MinSpawnDistance Location S.Self.SpawnedActors

/-- Start of the downward trace (line 146). -/
def StartTrace (BoxExtent WorldPos : FVector) : FVector :=
  WorldPos.add ⟨0, 0, BoxExtent.Z⟩

/-- End of the downward trace (line 147). -/
def EndTrace (BoxExtent WorldPos : FVector) : FVector :=
  WorldPos.sub ⟨0, 0, BoxExtent.Z * 2⟩

/-- The sample point of an attempt (lines 124-132): three draws in the box's
local space, moved to world space. -/
def SampleWorldPos (E : Engine) (S : State) : FVector × UWorld :=
  let X := RandRange E (-S.Self.BoxExtent.X) S.Self.BoxExtent.X S.World
  let Y := RandRange E (-S.Self.BoxExtent.Y) S.Self.BoxExtent.Y X.2
  let Z := RandRange E (-S.Self.BoxExtent.Z) S.Self.BoxExtent.Z Y.2
  (S.Self.BoxCenter.add (E.RotateVector S.Self.BoxRotation ⟨X.1, Y.1, Z.1⟩), Z.2)

/-- The spawn chance of the bias gate (line 138). -/
def SpawnChance (Self : ADecalInstanceProjector) (Complexity : ℚ) : ℚ :=
  FMath.Lerp 1 Complexity Self.IntersectionBias

/-- The random rotation with the pitch taken from the surface (lines 166-175). -/
def SpawnRotation (E : Engine) (S : State) (Hit : FHitResult) : FRotator × UWorld :=
  let P := RandRange E (-S.Self.RotationRange.X) S.Self.RotationRange.X S.World
  let Y := RandRange E (-S.Self.RotationRange.Y) S.Self.RotationRange.Y P.2
  let R := RandRange E (-S.Self.RotationRange.Z) S.Self.RotationRange.Z Y.2
  let Random : FRotator := ⟨P.1, Y.1, R.1⟩
  let SurfaceRotation := E.VectorRotation Hit.Normal
  (⟨SurfaceRotation.Pitch, Random.Yaw, Random.Roll⟩, R.2)

/-- The two spawn options (lines 182-208). The mesh component that option 2
attaches to the new actor is not part of the modelled actor state. -/
def SpawnOption (E : Engine) (Self : ADecalInstanceProjector) (SpawnLocation : FVector)
    (Rotation : FRotator) (W : UWorld) : ActorPtr × UWorld :=
  if Self.ActorToSpawn.isSome then SpawnActor E SpawnLocation Rotation W
  else if Self.StaticMeshToSpawn.isSome then SpawnActor E SpawnLocation Rotation W
  else (none, W)

/-- What `SpawnActors` does with a surface hit (lines 158-217). -/
def PlaceOnHit (E : Engine) (S : State) (Hit : FHitResult) : State :=
  let SpawnLocation := Hit.Location.add (Hit.Normal.scale S.Self.SurfaceOffset)
  if !IsValidSpawnLocation S SpawnLocation then S
  else
    let Rot := SpawnRotation E S Hit
    let Sp := SpawnOption E S.Self SpawnLocation Rot.1 Rot.2
    match Sp.1 with
    | none => { S with World := Sp.2 }
    | some I =>
      let RandomScale := RandRange E S.Self.ScaleRange.X S.Self.ScaleRange.Y Sp.2
      { Self := { S.Self with SpawnedActors := S.Self.SpawnedActors ++ [some I] },
        World := RandomScale.2.SetActorScale3D I (FVector.splat RandomScale.1) }

/-- One iteration of the loop of `SpawnActors` (lines 122-219). -/
def SpawnAttempt (E : Engine) (OverlappingActors : List Nat) (S : State) : State :=
  let Pos := SampleWorldPos E S
  let Complexity := CalculateGeometryComplexity E Pos.1 OverlappingActors Pos.2
  let Draw := FRand E Complexity.2
  if Draw.1 > SpawnChance S.Self Complexity.1 then { S with World := Draw.2 }
  else
    let Trace := LineTraceSingleByChannel E (StartTrace S.Self.BoxExtent Pos.1)
      (EndTrace S.Self.BoxExtent Pos.1) ⟨true, S.Self.SpawnedActors⟩ Draw.2
    match Trace.1 with
    | none => { S with World := Trace.2 }
    | some Hit => PlaceOnHit E { S with World := Trace.2 } Hit

/-- The loop of `SpawnActors` (line 122), `Count` iterations. -/
def SpawnLoop (E : Engine) (OverlappingActors : List Nat) : Nat → State → State
  | 0, S => S
  | Count + 1, S => SpawnLoop E OverlappingActors Count (SpawnAttempt E OverlappingActors S)

/-- The loop that extracts the unique actors of the overlap results
(lines 100-107). -/
def UniqueActors : List ActorPtr → List Nat → List Nat
  | [], OverlappingActors => OverlappingActors
  | none :: Rest, OverlappingActors => UniqueActors Rest OverlappingActors
  | some A :: Rest, OverlappingActors =>
    if OverlappingActors.contains A then UniqueActors Rest OverlappingActors
    else UniqueActors Rest (OverlappingActors ++ [A])

/-- Appends a `UE_LOG` line. -/
def UWorld.Log (W : UWorld) (L : LogLine) : UWorld :=
  { W with Output := W.Output ++ [L] }

/-- Method `ADecalInstanceProjector::SpawnActors` (lines 73-222). -/
def SpawnActors (E : Engine) (S : State) : State :=
  if !S.Self.ActorToSpawn.isSome && !S.Self.StaticMeshToSpawn.isSome then
    { S with World := S.World.Log LogLine.NoAssetSet }
  else
    let S1 := ClearSpawnedActors S
    let Ov := OverlapMultiByChannel E S1.Self.BoxCenter S1.Self.BoxRotation S1.Self.BoxExtent
      ⟨true, []⟩ S1.World
    let OverlappingActors := UniqueActors Ov.1 []
    if OverlappingActors.length = 0 then
      { S1 with World := Ov.2.Log LogLine.NoOverlappingActors }
    else
      let S2 : State := { S1 with World := Ov.2.Log (LogLine.FoundOverlapping OverlappingActors.length) }
      let S3 := SpawnLoop E OverlappingActors S1.Self.SpawnDensity.toNat S2
      { S3 with World := S3.World.Log (LogLine.Spawned S3.Self.SpawnedActors.length) }

/-- The list `OverlappingActors` that `SpawnActors` extracts when called in
state `S` (lines 84-107): the overlap query is the first engine call after the
clearing, which makes none. -/
def OverlappingActorsOf (E : Engine) (S : State) : List Nat :=
  UniqueActors (E.OverlapMultiByChannel S.World.Clock S.Self.BoxCenter S.Self.BoxRotation
    S.Self.BoxExtent ⟨true, []⟩) []

/-- The overlap query that `SpawnActors` issues when called in state `S`. -/
def OverlapQueryOf (S : State) : Query :=
  Query.Overlap S.Self.BoxCenter S.Self.BoxRotation S.Self.BoxExtent ⟨true, []⟩

/-! ## The fan outcome, as the specification describes it -/

/-- The outcome of the ray fan: for each of `Remaining` rays starting with ray
`I`, issued from clock value `Clock` on, the hit distance, or `none` for a miss. -/
def FanOutcomes (E : Engine) (Location : FVector) : Nat → Nat → Nat → List (Option ℚ)
  | 0, _, _ => []
  | Remaining + 1, I, Clock =>
    (E.LineTraceSingleByChannel Clock Location (FanEnd E Location I) ⟨true, []⟩).map
        FHitResult.Distance
      :: FanOutcomes E Location Remaining (I + 1) (Clock + 1)

/-- Number of rays of a fan outcome that hit. -/
def SpecHits (Fan : List (Option ℚ)) : Nat := (Fan.filterMap id).length

/-- Sum of the hit distances of a fan outcome. -/
def SpecTotalDistance (Fan : List (Option ℚ)) : ℚ := (Fan.filterMap id).sum

/-- Mean distance of the hits of a fan outcome. -/
def SpecMeanDistance (Fan : List (Option ℚ)) : ℚ := SpecTotalDistance Fan / (SpecHits Fan : ℚ)

/-- The complexity of the specification: `0` without a hit, else
`0.5 * (hits / 8) + 0.5 * (1 - clamp (mean / 100, 0, 1))`. -/
def SpecComplexity (Fan : List (Option ℚ)) : ℚ :=
  if SpecHits Fan = 0 then 0
  else
    (1 / 2) * ((SpecHits Fan : ℚ) / 8)
      + (1 / 2) * (1 - FMath.Clamp (SpecMeanDistance Fan / 100) 0 1)

/-! ## Concrete inputs used by the examples below -/

/-- An engine whose raycast issued at clock value `C` hits at distance `D` when
`Answer C = some D` and misses otherwise; every random draw is `Draw`, the
overlap query returns `Overlaps`, and every spawn request succeeds. -/
def ExampleEngine (Answer : Nat → Option ℚ) (Draw : ℚ) (Overlaps : List ActorPtr) : Engine where
  OverlapMultiByChannel := fun _ _ _ _ _ => Overlaps
  LineTraceSingleByChannel := fun C _ _ _ => (Answer C).map (fun D => ⟨⟨0, 0, 0⟩, ⟨0, 0, 1⟩, D⟩)
  FRand := fun _ => Draw
  SpawnActor := fun _ _ _ => true
  RotateVector := fun _ V => V
  RotatorVector := fun _ => ⟨1, 0, 0⟩
  VectorRotation := fun _ => ⟨0, 0, 0⟩

/-- A world without actors in which nothing has happened yet. -/
def EmptyWorld : UWorld := ⟨[], 0, [], []⟩

/-- The projector with the default property values of the header and of the
constructor (box extent 200), at the origin, with the given assets and spawn
list. -/
def DefaultProjector (ActorToSpawn : Option Nat) (SpawnedActors : List ActorPtr) :
    ADecalInstanceProjector where
  BoxExtent := ⟨200, 200, 200⟩
  BoxCenter := ⟨0, 0, 0⟩
  BoxRotation := ⟨0, 0, 0⟩
  ActorToSpawn := ActorToSpawn
  StaticMeshToSpawn := none
  SpawnedMeshMaterial := none
  SpawnDensity := 50
  ScaleRange := ⟨1 / 2, 3 / 2⟩
  RotationRange := ⟨360, 360, 360⟩
  SurfaceOffset := 1
  IntersectionBias := 7 / 10
  MinSpawnDistance := 10
  bAutoUpdateInEditor := true
  SpawnedActors := SpawnedActors

/-- Sets the property `IntersectionBias` (it is `EditAnywhere`). -/
def ADecalInstanceProjector.SetIntersectionBias (Self : ADecalInstanceProjector) (Bias : ℚ) :
    ADecalInstanceProjector :=
  { Self with IntersectionBias := Bias }

/-- Whether a configuration is invalid in the specification's sense: attempt
count below 1, bias outside `[0, 1]`, or scale minimum above scale maximum. -/
def SpecInvalidConfig (Self : ADecalInstanceProjector) : Bool :=
  decide (Self.SpawnDensity < 1) || decide (Self.IntersectionBias < 0)
    || decide (1 < Self.IntersectionBias) || decide (Self.ScaleRange.X > Self.ScaleRange.Y)

/-- The default projector with an attempt count of `0`. -/
def ZeroDensityProjector : ADecalInstanceProjector :=
  { DefaultProjector (some 0) [] with SpawnDensity := 0 }

/-- The default projector with one attempt, a bias of `2` and the scale range
`[2, 1]`. -/
def OutOfRangeProjector : ADecalInstanceProjector :=
  { DefaultProjector (some 0) [] with
      SpawnDensity := 1, IntersectionBias := 2, ScaleRange := ⟨2, 1⟩ }

/-- Every raycast hits at distance 10. -/
def AlwaysHit : Nat → Option ℚ := fun _ => some 10

/-- Two instances of the spawn list are at Euclidean distance at least `M`. -/
def SpecFarApart (W : UWorld) (M : ℚ) (P Q : ActorPtr) : Prop :=
  ∃ I J, P = some I ∧ Q = some J ∧
    (M : ℝ) ≤ Real.sqrt
      ((FVector.DistSquared (W.GetActorLocation I) (W.GetActorLocation J) : ℚ) : ℝ)

/-- The transform of an accepted instance, as the specification describes it:
uniform scale within `ScaleRange`, yaw and roll within the jitter range, and
pitch equal to the pitch of the rotation of the normal of the hit of a downward
trace, the hit that the instance was placed on. -/
def SpecGoodTransform (E : Engine) (Self : ADecalInstanceProjector) (A : AActor) : Prop :=
  (∃ Scale, A.Scale3D = ⟨Scale, Scale, Scale⟩ ∧
    Self.ScaleRange.X ≤ Scale ∧ Scale ≤ Self.ScaleRange.Y) ∧
  (-Self.RotationRange.Y ≤ A.Rotation.Yaw ∧ A.Rotation.Yaw ≤ Self.RotationRange.Y) ∧
  (-Self.RotationRange.Z ≤ A.Rotation.Roll ∧ A.Rotation.Roll ≤ Self.RotationRange.Z) ∧
  (∃ (Hit : FHitResult) (C : Nat) (WorldPos : FVector) (Ignored : List ActorPtr),
    E.LineTraceSingleByChannel C (StartTrace Self.BoxExtent WorldPos)
      (EndTrace Self.BoxExtent WorldPos) ⟨true, Ignored⟩ = some Hit ∧
    A.Location = Hit.Location.add (Hit.Normal.scale Self.SurfaceOffset) ∧
    A.Rotation.Pitch = (E.VectorRotation Hit.Normal).Pitch)

/-- The default projector with two attempts and no minimum spacing. -/
def ZeroSpacingProjector : ADecalInstanceProjector :=
  { DefaultProjector (some 0) [] with SpawnDensity := 2, MinSpawnDistance := 0 }

/-- A first run of `SpawnActors`, with no minimum spacing, in an empty world
where every raycast hits the same surface point. -/
def FirstRun : State :=
  SpawnActors (ExampleEngine AlwaysHit 0 [some 7]) ⟨ZeroSpacingProjector, EmptyWorld⟩

/-- The state after `FirstRun` and three property edits: the spawn asset is
unset, and `SpawnDensity` and `MinSpawnDistance` are put back to their defaults
`50` and `10`. The spawn list and the world are those `FirstRun` left. -/
def SecondRunInput : State :=
  ⟨DefaultProjector none FirstRun.Self.SpawnedActors, FirstRun.World⟩

/-- A world with two live actors, both at the origin. -/
def TwoActorWorld : UWorld :=
  ⟨[⟨⟨0, 0, 0⟩, ⟨0, 0, 0⟩, ⟨1, 1, 1⟩, false⟩, ⟨⟨0, 0, 0⟩, ⟨0, 0, 0⟩, ⟨1, 1, 1⟩, false⟩], 0, [], []⟩

/-- One ray of the fan hits, at distance 0 (the ray issued at clock value 0). -/
def OneNearHit : Nat → Option ℚ := fun C => if C = 0 then some 0 else none

/-- As `OneNearHit`, and the ray issued at clock value 1 hits at distance 100. -/
def NearAndFarHit : Nat → Option ℚ :=
  fun C => if C = 0 then some 0 else if C = 1 then some 100 else none

/-! ## Effects of the engine calls on the world -/

@[simp] theorem FRand_world (E : Engine) (W : UWorld) :
    (FRand E W).2 = { W with Clock := W.Clock + 1 } := rfl

@[simp] theorem RandRange_world (E : Engine) (Min Max : ℚ) (W : UWorld) :
    (RandRange E Min Max W).2 = { W with Clock := W.Clock + 1 } := rfl

@[simp] theorem RandRange_value (E : Engine) (Min Max : ℚ) (W : UWorld) :
    (RandRange E Min Max W).1 = Min + (Max - Min) * E.FRand W.Clock := rfl

@[simp] theorem LineTrace_world (E : Engine) (Start End : FVector)
    (Params : FCollisionQueryParams) (W : UWorld) :
    (LineTraceSingleByChannel E Start End Params W).2 =
      { W with Clock := W.Clock + 1,
               Queries := W.Queries ++ [Query.LineTrace Start End Params] } := rfl

@[simp] theorem LineTrace_value (E : Engine) (Start End : FVector)
    (Params : FCollisionQueryParams) (W : UWorld) :
    (LineTraceSingleByChannel E Start End Params W).1 =
      E.LineTraceSingleByChannel W.Clock Start End Params := rfl

/-! ## The ray fan -/

@[simp] theorem SpecHits_nil : SpecHits [] = 0 := rfl

@[simp] theorem SpecHits_none (Fan : List (Option ℚ)) : SpecHits (none :: Fan) = SpecHits Fan := by
  simp [SpecHits, List.filterMap_cons]

@[simp] theorem SpecHits_some (D : ℚ) (Fan : List (Option ℚ)) :
    SpecHits (some D :: Fan) = SpecHits Fan + 1 := by
  simp [SpecHits, List.filterMap_cons]

@[simp] theorem SpecTotalDistance_nil : SpecTotalDistance [] = 0 := rfl

@[simp] theorem SpecTotalDistance_none (Fan : List (Option ℚ)) :
    SpecTotalDistance (none :: Fan) = SpecTotalDistance Fan := by
  simp [SpecTotalDistance, List.filterMap_cons]

@[simp] theorem SpecTotalDistance_some (D : ℚ) (Fan : List (Option ℚ)) :
    SpecTotalDistance (some D :: Fan) = D + SpecTotalDistance Fan := by
  simp [SpecTotalDistance, List.filterMap_cons]

theorem FanLoop_counters (E : Engine) (Location : FVector) :
    ∀ (Remaining I HitCount : Nat) (TotalDistance : ℚ) (W : UWorld),
      (FanLoop E Location Remaining I HitCount TotalDistance W).1 =
          HitCount + SpecHits (FanOutcomes E Location Remaining I W.Clock) ∧
        (FanLoop E Location Remaining I HitCount TotalDistance W).2.1 =
          TotalDistance + SpecTotalDistance (FanOutcomes E Location Remaining I W.Clock) := by
  intro Remaining
  induction Remaining with
  | zero =>
    intro I HitCount TotalDistance W
    simp [FanLoop, FanOutcomes]
  | succ n ih =>
    intro I HitCount TotalDistance W
    cases h : E.LineTraceSingleByChannel W.Clock Location (FanEnd E Location I) ⟨true, []⟩ with
    | none =>
      have := ih (I + 1) HitCount TotalDistance
        { W with Clock := W.Clock + 1,
                 Queries := W.Queries ++ [Query.LineTrace Location (FanEnd E Location I) ⟨true, []⟩] }
      simpa [FanLoop, FanOutcomes, h] using this
    | some Hit =>
      have := ih (I + 1) (HitCount + 1) (TotalDistance + Hit.Distance)
        { W with Clock := W.Clock + 1,
                 Queries := W.Queries ++ [Query.LineTrace Location (FanEnd E Location I) ⟨true, []⟩] }
      simp only [FanLoop, FanOutcomes, h, LineTrace_value, LineTrace_world, Option.map_some',
        SpecHits_some, SpecTotalDistance_some] at this ⊢
      constructor
      · rw [this.1]; omega
      · rw [this.2]; ring

theorem FanLoop_actors (E : Engine) (Location : FVector) :
    ∀ (Remaining I HitCount : Nat) (TotalDistance : ℚ) (W : UWorld),
      (FanLoop E Location Remaining I HitCount TotalDistance W).2.2.Actors = W.Actors ∧
      (FanLoop E Location Remaining I HitCount TotalDistance W).2.2.Output = W.Output ∧
      (FanLoop E Location Remaining I HitCount TotalDistance W).2.2.Queries.length =
        W.Queries.length + Remaining := by
  intro Remaining
  induction Remaining with
  | zero => intro I HitCount TotalDistance W; simp [FanLoop]
  | succ n ih =>
    intro I HitCount TotalDistance W
    cases h : E.LineTraceSingleByChannel W.Clock Location (FanEnd E Location I) ⟨true, []⟩ with
    | none =>
      have := ih (I + 1) HitCount TotalDistance
        { W with Clock := W.Clock + 1,
                 Queries := W.Queries ++ [Query.LineTrace Location (FanEnd E Location I) ⟨true, []⟩] }
      simp only [FanLoop, h, LineTrace_value, LineTrace_world, List.length_append,
        List.length_singleton] at this ⊢
      refine ⟨this.1, this.2.1, ?_⟩
      rw [this.2.2]; omega
    | some Hit =>
      have := ih (I + 1) (HitCount + 1) (TotalDistance + Hit.Distance)
        { W with Clock := W.Clock + 1,
                 Queries := W.Queries ++ [Query.LineTrace Location (FanEnd E Location I) ⟨true, []⟩] }
      simp only [FanLoop, h, LineTrace_value, LineTrace_world, List.length_append,
        List.length_singleton] at this ⊢
      refine ⟨this.1, this.2.1, ?_⟩
      rw [this.2.2]; omega

theorem FanOutcomes_length (E : Engine) (Location : FVector) :
    ∀ (Remaining I Clock : Nat), (FanOutcomes E Location Remaining I Clock).length = Remaining := by
  intro Remaining
  induction Remaining with
  | zero => intro I Clock; rfl
  | succ n ih => intro I Clock; simp [FanOutcomes, ih]

/-- Every list of ray outcomes is the fan outcome of some engine. -/
theorem FanOutcomes_example (Answer : Nat → Option ℚ) (Draw : ℚ) (Ov : List ActorPtr)
    (Location : FVector) :
    ∀ (Remaining I Clock : Nat),
      FanOutcomes (ExampleEngine Answer Draw Ov) Location Remaining I Clock =
        (List.range Remaining).map (fun K => Answer (Clock + K)) := by
  intro Remaining
  induction Remaining with
  | zero => intro I Clock; rfl
  | succ n ih =>
    intro I Clock
    rw [FanOutcomes, ih, List.range_succ_eq_map]
    simp only [List.map_cons, List.map_map, add_zero]
    refine congrArg₂ _ ?_ ?_
    · cases h : Answer Clock <;> simp [ExampleEngine, h]
    · apply List.map_congr_left
      intro K _
      simp only [Function.comp, Nat.succ_eq_add_one]
      congr 1
      omega

theorem FanOutcomes_realizable (Fan : List (Option ℚ)) (Location : FVector) :
    FanOutcomes (ExampleEngine (fun C => Fan.getD C none) 0 []) Location Fan.length 0 0 = Fan := by
  rw [FanOutcomes_example]
  apply List.ext_getElem?
  intro K
  by_cases hK : K < Fan.length
  · simp [hK, List.getD_eq_getElem?_getD, List.getElem?_eq_getElem hK]
  · have hle : Fan.length ≤ K := not_lt.mp hK
    simp [hK, List.getElem?_eq_none hle, hle]

theorem SpecHits_le_length (Fan : List (Option ℚ)) : SpecHits Fan ≤ Fan.length := by
  unfold SpecHits
  exact List.length_filterMap_le _ _

theorem Clamp_range (X : ℚ) : 0 ≤ FMath.Clamp X 0 1 ∧ FMath.Clamp X 0 1 ≤ 1 := by
  unfold FMath.Clamp
  split_ifs <;> constructor <;> linarith

theorem ComplexityScore_eq_spec (Fan : List (Option ℚ)) :
    ComplexityScore (SpecHits Fan) (SpecTotalDistance Fan) = SpecComplexity Fan := by
  unfold ComplexityScore SpecComplexity SpecMeanDistance NumRays TraceDistance
  split_ifs
  · rfl
  · push_cast; ring

theorem Complexity_eq_spec (E : Engine) (Location : FVector) (Ov : List Nat) (W : UWorld) :
    (CalculateGeometryComplexity E Location Ov W).1 =
      SpecComplexity (FanOutcomes E Location NumRays 0 W.Clock) := by
  have h := FanLoop_counters E Location NumRays 0 0 0 W
  unfold CalculateGeometryComplexity
  simp only [h.1, h.2, zero_add]
  exact ComplexityScore_eq_spec _

theorem SpecComplexity_range (Fan : List (Option ℚ)) (hlen : Fan.length = 8) :
    0 ≤ SpecComplexity Fan ∧ SpecComplexity Fan ≤ 1 := by
  have hle : SpecHits Fan ≤ 8 := hlen ▸ SpecHits_le_length Fan
  have hc := Clamp_range (SpecMeanDistance Fan / 100)
  have h8 : (SpecHits Fan : ℚ) ≤ 8 := by exact_mod_cast hle
  have h0 : (0 : ℚ) ≤ (SpecHits Fan : ℚ) := Nat.cast_nonneg _
  unfold SpecComplexity
  split_ifs
  · constructor <;> norm_num
  · constructor
    · have : 0 ≤ (SpecHits Fan : ℚ) / 8 := by positivity
      linarith [hc.2]
    · have : (SpecHits Fan : ℚ) / 8 ≤ 1 := by
        rw [div_le_one (by norm_num)]; exact h8
      linarith [hc.1]

/-! ## Frame properties: what the steps of an attempt leave unchanged -/

@[simp] theorem SetActorScale3D_queries (W : UWorld) (I : Nat) (V : FVector) :
    (W.SetActorScale3D I V).Queries = W.Queries := by
  unfold UWorld.SetActorScale3D; split <;> rfl

@[simp] theorem SetActorScale3D_output (W : UWorld) (I : Nat) (V : FVector) :
    (W.SetActorScale3D I V).Output = W.Output := by
  unfold UWorld.SetActorScale3D; split <;> rfl

@[simp] theorem SpawnActor_queries (E : Engine) (L : FVector) (R : FRotator) (W : UWorld) :
    (SpawnActor E L R W).2.Queries = W.Queries := by
  unfold SpawnActor; split <;> rfl

@[simp] theorem SpawnActor_output (E : Engine) (L : FVector) (R : FRotator) (W : UWorld) :
    (SpawnActor E L R W).2.Output = W.Output := by
  unfold SpawnActor; split <;> rfl

@[simp] theorem SpawnOption_queries (E : Engine) (Self : ADecalInstanceProjector) (L : FVector)
    (R : FRotator) (W : UWorld) : (SpawnOption E Self L R W).2.Queries = W.Queries := by
  unfold SpawnOption; split_ifs <;> simp

@[simp] theorem SpawnOption_output (E : Engine) (Self : ADecalInstanceProjector) (L : FVector)
    (R : FRotator) (W : UWorld) : (SpawnOption E Self L R W).2.Output = W.Output := by
  unfold SpawnOption; split_ifs <;> simp

@[simp] theorem SpawnRotation_world (E : Engine) (S : State) (Hit : FHitResult) :
    (SpawnRotation E S Hit).2 = { S.World with Clock := S.World.Clock + 1 + 1 + 1 } := rfl

@[simp] theorem SampleWorldPos_world (E : Engine) (S : State) :
    (SampleWorldPos E S).2 = { S.World with Clock := S.World.Clock + 1 + 1 + 1 } := rfl

theorem PlaceOnHit_queries (E : Engine) (S : State) (Hit : FHitResult) :
    (PlaceOnHit E S Hit).World.Queries = S.World.Queries ∧
      (PlaceOnHit E S Hit).World.Output = S.World.Output := by
  unfold PlaceOnHit
  dsimp only
  split_ifs
  · exact ⟨rfl, rfl⟩
  · split <;> simp

@[simp] theorem Complexity_queries_length (E : Engine) (L : FVector) (Ov : List Nat) (W : UWorld) :
    (CalculateGeometryComplexity E L Ov W).2.Queries.length = W.Queries.length + 8 :=
  (FanLoop_actors E L NumRays 0 0 0 W).2.2

@[simp] theorem Complexity_actors (E : Engine) (L : FVector) (Ov : List Nat) (W : UWorld) :
    (CalculateGeometryComplexity E L Ov W).2.Actors = W.Actors :=
  (FanLoop_actors E L NumRays 0 0 0 W).1

@[simp] theorem Complexity_output (E : Engine) (L : FVector) (Ov : List Nat) (W : UWorld) :
    (CalculateGeometryComplexity E L Ov W).2.Output = W.Output :=
  (FanLoop_actors E L NumRays 0 0 0 W).2.1

/-- With the gate passed, an attempt ends with the downward trace as its last
query, issued after the eight rays of the fan. -/
theorem SpawnAttempt_passed (E : Engine) (Ov : List Nat) (S : State)
    (hpass : ¬ (FRand E (CalculateGeometryComplexity E (SampleWorldPos E S).1 Ov
        (SampleWorldPos E S).2).2).1 >
      SpawnChance S.Self (CalculateGeometryComplexity E (SampleWorldPos E S).1 Ov
        (SampleWorldPos E S).2).1) :
    (SpawnAttempt E Ov S).World.Queries =
      (CalculateGeometryComplexity E (SampleWorldPos E S).1 Ov (SampleWorldPos E S).2).2.Queries ++
        [Query.LineTrace (StartTrace S.Self.BoxExtent (SampleWorldPos E S).1)
          (EndTrace S.Self.BoxExtent (SampleWorldPos E S).1) ⟨true, S.Self.SpawnedActors⟩] := by
  unfold SpawnAttempt
  dsimp only
  rw [if_neg hpass]
  split
  · rfl
  · rw [(PlaceOnHit_queries _ _ _).1]; rfl

/-! ## The complexity estimate -/

/-- C5: for every outcome of the 8-ray fan, whatever the hit distances, the
value returned by `CalculateGeometryComplexity` lies in `[0, 1]`. -/
theorem CalculateGeometryComplexity_range (E : Engine) (Location : FVector)
    (OverlappingActors : List Nat) (W : UWorld) :
    0 ≤ (CalculateGeometryComplexity E Location OverlappingActors W).1 ∧
      (CalculateGeometryComplexity E Location OverlappingActors W).1 ≤ 1 := by
  rw [Complexity_eq_spec]
  exact SpecComplexity_range _ (FanOutcomes_length E Location NumRays 0 W.Clock)

theorem Spec_set_hit (D : ℚ) :
    ∀ (Fan : List (Option ℚ)) (K : Nat), Fan[K]? = some none →
      SpecHits (Fan.set K (some D)) = SpecHits Fan + 1 ∧
        SpecTotalDistance (Fan.set K (some D)) = SpecTotalDistance Fan + D := by
  intro Fan
  induction Fan with
  | nil => intro K h; simp at h
  | cons A Rest ih =>
    intro K h
    cases K with
    | zero =>
      simp only [List.getElem?_cons_zero, Option.some.injEq] at h
      subst h
      simp [add_comm]
    | succ K =>
      simp only [List.getElem?_cons_succ] at h
      have := ih K h
      cases A with
      | none => simpa using this
      | some A =>
        rw [List.set_cons_succ, SpecHits_some, SpecTotalDistance_some, this.1, this.2,
          SpecHits_some, SpecTotalDistance_some]
        exact ⟨rfl, by ring⟩

/-- The score grows with an added hit exactly when the clamped normalised mean
distance grows by at most one eighth. -/
theorem SpecComplexity_add_hit (Fan Fan2 : List (Option ℚ))
    (hhits : SpecHits Fan2 = SpecHits Fan + 1) :
    SpecComplexity Fan ≤ SpecComplexity Fan2 ↔
      (SpecHits Fan = 0 ∨
        FMath.Clamp (SpecMeanDistance Fan2 / 100) 0 1 ≤
          FMath.Clamp (SpecMeanDistance Fan / 100) 0 1 + 1 / 8) := by
  have hc2 := Clamp_range (SpecMeanDistance Fan2 / 100)
  unfold SpecComplexity
  rw [hhits]
  by_cases h0 : SpecHits Fan = 0
  · simp only [h0, if_true, zero_add, one_ne_zero, if_false, true_or, iff_true]
    push_cast
    linarith [hc2.2]
  · simp only [h0, if_false, Nat.succ_ne_zero, false_or]
    push_cast
    constructor <;> intro h <;> linarith

theorem OneNearHit_fan :
    FanOutcomes (ExampleEngine OneNearHit 0 []) ⟨0, 0, 0⟩ 8 0 EmptyWorld.Clock =
      [some 0, none, none, none, none, none, none, none] := by
  simp [FanOutcomes, ExampleEngine, OneNearHit, EmptyWorld]

theorem NearAndFarHit_fan :
    FanOutcomes (ExampleEngine NearAndFarHit 0 []) ⟨0, 0, 0⟩ 8 0 EmptyWorld.Clock =
      [some 0, some 100, none, none, none, none, none, none] := by
  simp [FanOutcomes, ExampleEngine, NearAndFarHit, EmptyWorld]

theorem OneNearHit_score :
    (CalculateGeometryComplexity (ExampleEngine OneNearHit 0 []) ⟨0, 0, 0⟩ [] EmptyWorld).1
      = 9 / 16 := by
  rw [Complexity_eq_spec]
  show SpecComplexity (FanOutcomes (ExampleEngine OneNearHit 0 []) ⟨0, 0, 0⟩ 8 0
    EmptyWorld.Clock) = _
  rw [OneNearHit_fan]
  norm_num [SpecComplexity, SpecMeanDistance, FMath.Clamp]

theorem NearAndFarHit_score :
    (CalculateGeometryComplexity (ExampleEngine NearAndFarHit 0 []) ⟨0, 0, 0⟩ [] EmptyWorld).1
      = 3 / 8 := by
  rw [Complexity_eq_spec]
  show SpecComplexity (FanOutcomes (ExampleEngine NearAndFarHit 0 []) ⟨0, 0, 0⟩ 8 0
    EmptyWorld.Clock) = _
  rw [NearAndFarHit_fan]
  norm_num [SpecComplexity, SpecMeanDistance, FMath.Clamp]

theorem SpawnChance_zero_bias (Self : ADecalInstanceProjector) (C : ℚ)
    (hb : Self.IntersectionBias = 0) : SpawnChance Self C = 1 := by
  simp [SpawnChance, FMath.Lerp, hb]

theorem SpawnChance_full_bias (Self : ADecalInstanceProjector) (C : ℚ)
    (hb : Self.IntersectionBias = 1) : SpawnChance Self C = C := by
  simp [SpawnChance, FMath.Lerp, hb]

/-- C10, as amended: the downward trace of an attempt that passes the gate is
the attempt's last query; it is vertical, starts at the sample raised by
`BoxExtent.Z` and ends at the sample lowered by `2 * BoxExtent.Z`, so its height
is `3 * BoxExtent.Z` and its midpoint is the sample lowered by `BoxExtent.Z / 2`. -/
theorem DownwardTrace_segment (E : Engine) (OverlappingActors : List Nat) (S : State)
    (P : FVector) (hP : P = (SampleWorldPos E S).1)
    (hpass : ¬ (FRand E (CalculateGeometryComplexity E P OverlappingActors
        (SampleWorldPos E S).2).2).1 >
      SpawnChance S.Self (CalculateGeometryComplexity E P OverlappingActors
        (SampleWorldPos E S).2).1) :
    (SpawnAttempt E OverlappingActors S).World.Queries.getLast? =
        some (Query.LineTrace (StartTrace S.Self.BoxExtent P) (EndTrace S.Self.BoxExtent P)
          ⟨true, S.Self.SpawnedActors⟩) ∧
      StartTrace S.Self.BoxExtent P = ⟨P.X, P.Y, P.Z + S.Self.BoxExtent.Z⟩ ∧
      EndTrace S.Self.BoxExtent P = ⟨P.X, P.Y, P.Z - 2 * S.Self.BoxExtent.Z⟩ ∧
      (StartTrace S.Self.BoxExtent P).Z - (EndTrace S.Self.BoxExtent P).Z
        = 3 * S.Self.BoxExtent.Z ∧
      ((StartTrace S.Self.BoxExtent P).Z + (EndTrace S.Self.BoxExtent P).Z) / 2
        = P.Z - S.Self.BoxExtent.Z / 2 := by
  subst hP
  refine ⟨?_, ?_, ?_, ?_, ?_⟩
  · rw [SpawnAttempt_passed E OverlappingActors S hpass]
    simp
  · simp [StartTrace, FVector.add]
  · simp [EndTrace, FVector.sub, mul_comm]
  · simp only [StartTrace, EndTrace, FVector.add, FVector.sub]; ring
  · simp only [StartTrace, EndTrace, FVector.add, FVector.sub]; ring

/-- C10, counterexample: for the default box (half-extents 200) and a sample at
the origin the trace ends at height `-400`, not at `-200`; it is 600 long, not
400, and its midpoint is at height `-100`, not at the sample. -/
theorem DownwardTrace_not_centered :
    StartTrace ⟨200, 200, 200⟩ ⟨0, 0, 0⟩ = ⟨0, 0, 200⟩ ∧
    EndTrace ⟨200, 200, 200⟩ ⟨0, 0, 0⟩ = ⟨0, 0, -400⟩ ∧
    EndTrace ⟨200, 200, 200⟩ ⟨0, 0, 0⟩ ≠ FVector.sub ⟨0, 0, 0⟩ ⟨0, 0, 200⟩ ∧
    (StartTrace ⟨200, 200, 200⟩ ⟨0, 0, 0⟩).Z - (EndTrace ⟨200, 200, 200⟩ ⟨0, 0, 0⟩).Z ≠ 2 * 200 ∧
    ((StartTrace ⟨200, 200, 200⟩ ⟨0, 0, 0⟩).Z + (EndTrace ⟨200, 200, 200⟩ ⟨0, 0, 0⟩).Z) / 2
      ≠ (0 : ℚ) := by
  refine ⟨?_, ?_, ?_, ?_, ?_⟩
  · simp [StartTrace, FVector.add]
  · norm_num [EndTrace, FVector.sub]
  · norm_num [EndTrace, FVector.sub]
  · norm_num [StartTrace, EndTrace, FVector.add, FVector.sub]
  · norm_num [StartTrace, EndTrace, FVector.add, FVector.sub]

theorem Complexity_nonneg (E : Engine) (L : FVector) (Ov : List Nat) (W : UWorld) :
    0 ≤ (CalculateGeometryComplexity E L Ov W).1 := by
  rw [Complexity_eq_spec]
  exact (SpecComplexity_range _ (FanOutcomes_length E L NumRays 0 W.Clock)).1

/-- C10, as amended, at a concrete input: the default projector in an empty
world, all draws `0`, so that the sample is the corner `(-200, -200, -200)`. -/
theorem DownwardTrace_segment_witness :
    ((⟨-200, -200, -200⟩ : FVector) =
      (SampleWorldPos (ExampleEngine OneNearHit 0 []) ⟨DefaultProjector (some 0) [], EmptyWorld⟩).1) ∧
    (¬ (FRand (ExampleEngine OneNearHit 0 [])
          (CalculateGeometryComplexity (ExampleEngine OneNearHit 0 []) ⟨-200, -200, -200⟩ []
            (SampleWorldPos (ExampleEngine OneNearHit 0 [])
              ⟨DefaultProjector (some 0) [], EmptyWorld⟩).2).2).1 >
        SpawnChance (DefaultProjector (some 0) [])
          (CalculateGeometryComplexity (ExampleEngine OneNearHit 0 []) ⟨-200, -200, -200⟩ []
            (SampleWorldPos (ExampleEngine OneNearHit 0 [])
              ⟨DefaultProjector (some 0) [], EmptyWorld⟩).2).1) ∧
    (SpawnAttempt (ExampleEngine OneNearHit 0 []) []
        ⟨DefaultProjector (some 0) [], EmptyWorld⟩).World.Queries.getLast? =
      some (Query.LineTrace (StartTrace ⟨200, 200, 200⟩ ⟨-200, -200, -200⟩)
        (EndTrace ⟨200, 200, 200⟩ ⟨-200, -200, -200⟩) ⟨true, []⟩) ∧
    StartTrace ⟨200, 200, 200⟩ ⟨-200, -200, -200⟩ = ⟨-200, -200, -200 + 200⟩ ∧
    EndTrace ⟨200, 200, 200⟩ ⟨-200, -200, -200⟩ = ⟨-200, -200, -200 - 2 * 200⟩ := by
  have hP : (⟨-200, -200, -200⟩ : FVector) =
      (SampleWorldPos (ExampleEngine OneNearHit 0 [])
        ⟨DefaultProjector (some 0) [], EmptyWorld⟩).1 := by
    simp [SampleWorldPos, ExampleEngine, DefaultProjector, FVector.add]
  have hpass : ¬ (FRand (ExampleEngine OneNearHit 0 [])
        (CalculateGeometryComplexity (ExampleEngine OneNearHit 0 []) ⟨-200, -200, -200⟩ []
          (SampleWorldPos (ExampleEngine OneNearHit 0 [])
            ⟨DefaultProjector (some 0) [], EmptyWorld⟩).2).2).1 >
      SpawnChance (DefaultProjector (some 0) [])
        (CalculateGeometryComplexity (ExampleEngine OneNearHit 0 []) ⟨-200, -200, -200⟩ []
          (SampleWorldPos (ExampleEngine OneNearHit 0 [])
            ⟨DefaultProjector (some 0) [], EmptyWorld⟩).2).1 := by
    have hc := Complexity_nonneg (ExampleEngine OneNearHit 0 []) ⟨-200, -200, -200⟩ []
      (SampleWorldPos (ExampleEngine OneNearHit 0 [])
        ⟨DefaultProjector (some 0) [], EmptyWorld⟩).2
    simp only [FRand, ExampleEngine, SpawnChance, FMath.Lerp, DefaultProjector, gt_iff_lt,
      not_lt] at hc ⊢
    linarith
  have h := DownwardTrace_segment (ExampleEngine OneNearHit 0 []) []
    ⟨DefaultProjector (some 0) [], EmptyWorld⟩ ⟨-200, -200, -200⟩ hP hpass
  exact ⟨hP, hpass, h.1, h.2.1, h.2.2.1⟩

/-! ## Clearing -/

theorem IsValid_lt (W : UWorld) (I : Nat) (h : W.IsValid (some I) = true) :
    I < W.Actors.length := by
  by_contra hc
  have hn : W.Actors[I]? = none := List.getElem?_eq_none (by omega)
  simp [UWorld.IsValid, hn] at h

theorem Destroy_cases (W : UWorld) (J I : Nat) :
    ((W.Destroy J).IsDestroyed I = true ↔
      (W.IsDestroyed I = true ∨ (J = I ∧ I < W.Actors.length))) ∧
    ((W.Destroy J).IsValid (some I) = true ↔ (W.IsValid (some I) = true ∧ J ≠ I)) := by
  unfold UWorld.Destroy UWorld.IsDestroyed UWorld.IsValid
  cases hJ : W.Actors[J]? with
  | none =>
    have hlen : W.Actors.length ≤ J := by
      by_contra hc
      rw [List.getElem?_eq_getElem (by omega)] at hJ
      exact Option.noConfusion hJ
    constructor
    · simp only []
      constructor
      · exact fun h => Or.inl h
      · rintro (h | ⟨rfl, h⟩)
        · exact h
        · omega
    · simp only []
      constructor
      · intro h
        refine ⟨h, ?_⟩
        rintro rfl
        rw [hJ] at h
        exact Bool.noConfusion h
      · exact fun h => h.1
  | some A =>
    have hlen : J < W.Actors.length := by
      by_contra hc
      rw [List.getElem?_eq_none (by omega)] at hJ
      exact Option.noConfusion hJ
    simp only [List.getElem?_set]
    by_cases hJI : J = I
    · subst hJI
      simp [hlen]
    · simp only [if_neg hJI]
      constructor
      · constructor
        · exact fun h => Or.inl h
        · rintro (h | ⟨h, _⟩)
          · exact h
          · exact absurd h hJI
      · constructor
        · exact fun h => ⟨h, hJI⟩
        · exact fun h => h.1

theorem ClearStep_cases (W : UWorld) (P : ActorPtr) (I : Nat)
    (h : W.IsValid (some I) = true ∨ W.IsDestroyed I = true) :
    ((ClearStep W P).IsValid (some I) = true ∧ P ≠ some I) ∨
      (ClearStep W P).IsDestroyed I = true := by
  cases P with
  | none =>
    rcases h with h | h
    · exact Or.inl ⟨h, by simp⟩
    · exact Or.inr h
  | some J =>
    unfold ClearStep
    simp only []
    by_cases hv : W.IsValid (some J) = true
    · rw [if_pos hv]
      rcases h with h | h
      · by_cases hJI : J = I
        · subst hJI
          right
          rw [(Destroy_cases W J J).1]
          right
          exact ⟨rfl, IsValid_lt W J hv⟩
        · left
          refine ⟨((Destroy_cases W J I).2).2 ⟨h, hJI⟩, ?_⟩
          intro hc
          exact hJI (Option.some.inj hc)
      · right
        exact ((Destroy_cases W J I).1).2 (Or.inl h)
    · rw [if_neg hv]
      rcases h with h | h
      · left
        refine ⟨h, ?_⟩
        intro hc
        rw [Option.some.inj hc] at hv
        exact hv h
      · exact Or.inr h

theorem ClearStep_destroyed (W : UWorld) (P : ActorPtr) (I : Nat)
    (h : W.IsDestroyed I = true) : (ClearStep W P).IsDestroyed I = true := by
  cases P with
  | none => exact h
  | some J =>
    unfold ClearStep
    simp only []
    split_ifs
    · exact ((Destroy_cases W J I).1).2 (Or.inl h)
    · exact h

theorem ClearLoop_destroyed (I : Nat) :
    ∀ (L : List ActorPtr) (W : UWorld), W.IsDestroyed I = true →
      (L.foldl ClearStep W).IsDestroyed I = true := by
  intro L
  induction L with
  | nil => intro W h; exact h
  | cons P Rest ih => intro W h; exact ih _ (ClearStep_destroyed W P I h)

theorem ClearLoop_destroys (I : Nat) :
    ∀ (L : List ActorPtr) (W : UWorld), some I ∈ L →
      (W.IsValid (some I) = true ∨ W.IsDestroyed I = true) →
      (L.foldl ClearStep W).IsDestroyed I = true := by
  intro L
  induction L with
  | nil => intro W hmem; simp at hmem
  | cons P Rest ih =>
    intro W hmem h
    rcases ClearStep_cases W P I h with ⟨hv, hne⟩ | hd
    · have hmem2 : some I ∈ Rest := by
        rcases List.mem_cons.mp hmem with h1 | h1
        · exact absurd h1.symm hne
        · exact h1
      exact ih _ hmem2 (Or.inl hv)
    · exact ClearLoop_destroyed I Rest _ hd

/-- C9: after `ClearSpawnedActors` the spawn list is empty and every valid
instance that was in it is destroyed; on an empty list the state is unchanged,
and clearing twice gives the same state as clearing once. -/
theorem ClearSpawnedActors_spec (S : State) :
    (ClearSpawnedActors S).Self.SpawnedActors = [] ∧
    (∀ I, some I ∈ S.Self.SpawnedActors → S.World.IsValid (some I) = true →
      (ClearSpawnedActors S).World.IsDestroyed I = true ∧
        (ClearSpawnedActors S).World.IsValid (some I) = false) ∧
    (S.Self.SpawnedActors = [] → ClearSpawnedActors S = S) ∧
    ClearSpawnedActors (ClearSpawnedActors S) = ClearSpawnedActors S := by
  refine ⟨rfl, ?_, ?_, rfl⟩
  · intro I hmem hv
    have hd := ClearLoop_destroys I S.Self.SpawnedActors S.World hmem (Or.inl hv)
    refine ⟨hd, ?_⟩
    show (S.Self.SpawnedActors.foldl ClearStep S.World).IsValid (some I) = false
    have hd2 : (S.Self.SpawnedActors.foldl ClearStep S.World).IsDestroyed I = true := hd
    unfold UWorld.IsDestroyed at hd2
    unfold UWorld.IsValid
    split at hd2
    · exact Bool.noConfusion hd2
    · rename_i A hA
      simp only [hA, hd2, Bool.not_true]
  · intro hnil
    cases S with
    | mk Self World =>
      cases Self
      simp only [] at hnil
      subst hnil
      rfl

/-! ## One attempt of the spawn loop -/

theorem set_last {α : Type} (L : List α) (A B : α) : (L ++ [A]).set L.length B = L ++ [B] := by
  induction L with
  | nil => rfl
  | cons H T ih => simp [ih]

theorem getElem?_last {α : Type} (L : List α) (A : α) : (L ++ [A])[L.length]? = some A := by
  induction L with
  | nil => rfl
  | cons H T ih => simp

theorem SpawnActor_cases (E : Engine) (L : FVector) (R : FRotator) (W : UWorld) :
    ((SpawnActor E L R W).1 = none ∧ (SpawnActor E L R W).2.Actors = W.Actors) ∨
    ((SpawnActor E L R W).1 = some W.Actors.length ∧
      (SpawnActor E L R W).2.Actors = W.Actors ++ [⟨L, R, FVector.splat 1, false⟩]) := by
  unfold SpawnActor
  split_ifs
  · exact Or.inr ⟨rfl, rfl⟩
  · exact Or.inl ⟨rfl, rfl⟩

theorem SpawnOption_cases (E : Engine) (Self : ADecalInstanceProjector) (L : FVector)
    (R : FRotator) (W : UWorld) :
    ((SpawnOption E Self L R W).1 = none ∧ (SpawnOption E Self L R W).2.Actors = W.Actors) ∨
    ((SpawnOption E Self L R W).1 = some W.Actors.length ∧
      (SpawnOption E Self L R W).2.Actors = W.Actors ++ [⟨L, R, FVector.splat 1, false⟩]) := by
  unfold SpawnOption
  split_ifs
  · exact SpawnActor_cases E L R W
  · exact SpawnActor_cases E L R W
  · exact Or.inl ⟨rfl, rfl⟩

/-- What a surface hit leads to: nothing is spawned, or exactly one actor is
appended to the actor table and to the spawn list, at a location that passed
`IsValidSpawnLocation`, with the transform computed at lines 159-214. -/
theorem PlaceOnHit_cases (E : Engine) (S : State) (Hit : FHitResult) :
    ((PlaceOnHit E S Hit).Self = S.Self ∧ (PlaceOnHit E S Hit).World.Actors = S.World.Actors) ∨
    (∃ N2 N3 N4 : Nat,
      IsValidSpawnLocation S (Hit.Location.add (Hit.Normal.scale S.Self.SurfaceOffset)) = true ∧
      (PlaceOnHit E S Hit).Self =
        { S.Self with SpawnedActors := S.Self.SpawnedActors ++ [some S.World.Actors.length] } ∧
      (PlaceOnHit E S Hit).World.Actors = S.World.Actors ++
        [⟨Hit.Location.add (Hit.Normal.scale S.Self.SurfaceOffset),
          ⟨(E.VectorRotation Hit.Normal).Pitch,
            -S.Self.RotationRange.Y
              + (S.Self.RotationRange.Y - -S.Self.RotationRange.Y) * E.FRand N2,
            -S.Self.RotationRange.Z
              + (S.Self.RotationRange.Z - -S.Self.RotationRange.Z) * E.FRand N3⟩,
          FVector.splat (S.Self.ScaleRange.X
            + (S.Self.ScaleRange.Y - S.Self.ScaleRange.X) * E.FRand N4),
          false⟩]) := by
  unfold PlaceOnHit
  dsimp only
  by_cases hv : IsValidSpawnLocation S (Hit.Location.add (Hit.Normal.scale S.Self.SurfaceOffset))
      = true
  · simp only [hv, Bool.not_true, Bool.false_eq_true, if_false]
    rcases SpawnOption_cases E S.Self (Hit.Location.add (Hit.Normal.scale S.Self.SurfaceOffset))
      (SpawnRotation E S Hit).1 (SpawnRotation E S Hit).2 with ⟨h1, h2⟩ | ⟨h1, h2⟩
    · left
      rw [h1]
      exact ⟨rfl, by simpa using h2⟩
    · right
      rw [h1]
      refine ⟨S.World.Clock + 1, S.World.Clock + 1 + 1,
        (SpawnOption E S.Self (Hit.Location.add (Hit.Normal.scale S.Self.SurfaceOffset))
          (SpawnRotation E S Hit).1 (SpawnRotation E S Hit).2).2.Clock, trivial, rfl, ?_⟩
      simp only [SpawnRotation_world] at h2 ⊢
      simp only [UWorld.SetActorScale3D, RandRange_world, RandRange_value, h2, getElem?_last,
        set_last]
      rfl
  · left
    simp only [Bool.not_eq_true] at hv
    simp [hv]

theorem IsValidSpawnLocationLoop_congr (W W2 : UWorld) (h : W.Actors = W2.Actors) (M : ℚ)
    (L : FVector) (Ps : List ActorPtr) :
    IsValidSpawnLocationLoop W M L Ps = IsValidSpawnLocationLoop W2 M L Ps := by
  induction Ps with
  | nil => rfl
  | cons P Rest ih =>
    cases P with
    | none => simpa [IsValidSpawnLocationLoop] using ih
    | some I =>
      simp only [IsValidSpawnLocationLoop, UWorld.IsValid, UWorld.GetActorLocation, h, ih]

/-- What an attempt leads to: the spawn list and the actor table are unchanged,
or the attempt placed one actor on a hit returned by the raycast oracle. -/
theorem SpawnAttempt_cases (E : Engine) (Ov : List Nat) (S : State) :
    ((SpawnAttempt E Ov S).Self = S.Self ∧ (SpawnAttempt E Ov S).World.Actors = S.World.Actors) ∨
    (∃ (Hit : FHitResult) (C : Nat) (WorldPos : FVector) (N2 N3 N4 : Nat),
      E.LineTraceSingleByChannel C (StartTrace S.Self.BoxExtent WorldPos)
        (EndTrace S.Self.BoxExtent WorldPos) ⟨true, S.Self.SpawnedActors⟩ = some Hit ∧
      IsValidSpawnLocationLoop S.World S.Self.MinSpawnDistance
        (Hit.Location.add (Hit.Normal.scale S.Self.SurfaceOffset)) S.Self.SpawnedActors = true ∧
      (SpawnAttempt E Ov S).Self =
        { S.Self with SpawnedActors := S.Self.SpawnedActors ++ [some S.World.Actors.length] } ∧
      (SpawnAttempt E Ov S).World.Actors = S.World.Actors ++
        [⟨Hit.Location.add (Hit.Normal.scale S.Self.SurfaceOffset),
          ⟨(E.VectorRotation Hit.Normal).Pitch,
            -S.Self.RotationRange.Y
              + (S.Self.RotationRange.Y - -S.Self.RotationRange.Y) * E.FRand N2,
            -S.Self.RotationRange.Z
              + (S.Self.RotationRange.Z - -S.Self.RotationRange.Z) * E.FRand N3⟩,
          FVector.splat (S.Self.ScaleRange.X
            + (S.Self.ScaleRange.Y - S.Self.ScaleRange.X) * E.FRand N4),
          false⟩]) := by
  unfold SpawnAttempt
  dsimp only
  split_ifs
  · exact Or.inl ⟨rfl, by simp⟩
  · have hA : (LineTraceSingleByChannel E
          (StartTrace S.Self.BoxExtent (SampleWorldPos E S).1)
          (EndTrace S.Self.BoxExtent (SampleWorldPos E S).1) ⟨true, S.Self.SpawnedActors⟩
          (FRand E (CalculateGeometryComplexity E (SampleWorldPos E S).1 Ov
            (SampleWorldPos E S).2).2).2).2.Actors = S.World.Actors := by
      simp
    cases hT : (LineTraceSingleByChannel E
          (StartTrace S.Self.BoxExtent (SampleWorldPos E S).1)
          (EndTrace S.Self.BoxExtent (SampleWorldPos E S).1) ⟨true, S.Self.SpawnedActors⟩
          (FRand E (CalculateGeometryComplexity E (SampleWorldPos E S).1 Ov
            (SampleWorldPos E S).2).2).2).1 with
    | none => exact Or.inl ⟨rfl, hA⟩
    | some Hit =>
      simp only []
      rcases PlaceOnHit_cases E ⟨S.Self, (LineTraceSingleByChannel E
          (StartTrace S.Self.BoxExtent (SampleWorldPos E S).1)
          (EndTrace S.Self.BoxExtent (SampleWorldPos E S).1) ⟨true, S.Self.SpawnedActors⟩
          (FRand E (CalculateGeometryComplexity E (SampleWorldPos E S).1 Ov
            (SampleWorldPos E S).2).2).2).2⟩ Hit with ⟨h1, h2⟩ | ⟨N2, N3, N4, hv, h1, h2⟩
      · left
        exact ⟨h1, h2.trans hA⟩
      · right
        refine ⟨Hit, _, (SampleWorldPos E S).1, N2, N3, N4, hT, ?_, ?_, ?_⟩
        · rw [← hv]
          exact IsValidSpawnLocationLoop_congr _ _ hA.symm _ _ _
        · rw [h1]
          simp only [hA]
        · rw [h2]
          simp only [hA]

/-! ## The whole of `SpawnActors` -/

theorem Destroy_frame (W : UWorld) (I : Nat) :
    (W.Destroy I).Queries = W.Queries ∧ (W.Destroy I).Output = W.Output ∧
      (W.Destroy I).Clock = W.Clock ∧ (W.Destroy I).Actors.length = W.Actors.length := by
  unfold UWorld.Destroy
  split
  · exact ⟨rfl, rfl, rfl, rfl⟩
  · exact ⟨rfl, rfl, rfl, by simp⟩

theorem ClearStep_frame (W : UWorld) (P : ActorPtr) :
    (ClearStep W P).Queries = W.Queries ∧ (ClearStep W P).Output = W.Output ∧
      (ClearStep W P).Clock = W.Clock ∧ (ClearStep W P).Actors.length = W.Actors.length := by
  cases P with
  | none => exact ⟨rfl, rfl, rfl, rfl⟩
  | some I =>
    unfold ClearStep
    simp only []
    split_ifs
    · exact Destroy_frame W I
    · exact ⟨rfl, rfl, rfl, rfl⟩

theorem ClearLoop_frame :
    ∀ (L : List ActorPtr) (W : UWorld),
      (L.foldl ClearStep W).Queries = W.Queries ∧ (L.foldl ClearStep W).Output = W.Output ∧
        (L.foldl ClearStep W).Clock = W.Clock ∧
        (L.foldl ClearStep W).Actors.length = W.Actors.length := by
  intro L
  induction L with
  | nil => intro W; exact ⟨rfl, rfl, rfl, rfl⟩
  | cons P Rest ih =>
    intro W
    have h1 := ih (ClearStep W P)
    have h2 := ClearStep_frame W P
    simp only [List.foldl_cons]
    exact ⟨h1.1.trans h2.1, h1.2.1.trans h2.2.1, h1.2.2.1.trans h2.2.2.1,
      h1.2.2.2.trans h2.2.2.2⟩

theorem UniqueActors_all_null :
    ∀ (Results : List ActorPtr) (Acc : List Nat), (∀ P ∈ Results, P = none) →
      UniqueActors Results Acc = Acc := by
  intro Results
  induction Results with
  | nil => intro Acc _; rfl
  | cons P Rest ih =>
    intro Acc h
    have hP : P = none := h P (List.mem_cons_self _ _)
    subst hP
    simp only [UniqueActors]
    exact ih Acc (fun Q hQ => h Q (List.mem_cons_of_mem _ hQ))

theorem SpawnLoop_induction (E : Engine) (Ov : List Nat) (Inv : State → Prop)
    (hstep : ∀ T, Inv T → Inv (SpawnAttempt E Ov T)) :
    ∀ (N : Nat) (T : State), Inv T → Inv (SpawnLoop E Ov N T) := by
  intro N
  induction N with
  | zero => intro T h; exact h
  | succ N ih => intro T h; exact ih _ (hstep T h)

/-- With a spawn asset set, `SpawnActors` clears the list, issues the overlap
query and then either stops (no overlapping actor) or runs the loop from the
empty list. -/
theorem SpawnActors_with_asset (E : Engine) (S : State)
    (hasset : S.Self.ActorToSpawn.isSome = true ∨ S.Self.StaticMeshToSpawn.isSome = true) :
    ∃ (W0 : UWorld),
      W0.Actors.length = S.World.Actors.length ∧
      W0.Queries = S.World.Queries ++ [OverlapQueryOf S] ∧
      ((OverlappingActorsOf E S = [] ∧
          SpawnActors E S = ⟨{ S.Self with SpawnedActors := [] },
            W0.Log LogLine.NoOverlappingActors⟩ ∧ W0.Output = S.World.Output) ∨
        (OverlappingActorsOf E S ≠ [] ∧
          SpawnActors E S =
            ⟨(SpawnLoop E (OverlappingActorsOf E S) S.Self.SpawnDensity.toNat
                ⟨{ S.Self with SpawnedActors := [] }, W0⟩).Self,
              (SpawnLoop E (OverlappingActorsOf E S) S.Self.SpawnDensity.toNat
                ⟨{ S.Self with SpawnedActors := [] }, W0⟩).World.Log
                (LogLine.Spawned (SpawnLoop E (OverlappingActorsOf E S) S.Self.SpawnDensity.toNat
                  ⟨{ S.Self with SpawnedActors := [] }, W0⟩).Self.SpawnedActors.length)⟩ ∧
          W0.Output = S.World.Output ++
            [LogLine.FoundOverlapping (OverlappingActorsOf E S).length])) := by
  have hcl := ClearLoop_frame S.Self.SpawnedActors S.World
  have hguard : (!S.Self.ActorToSpawn.isSome && !S.Self.StaticMeshToSpawn.isSome) = false := by
    rcases hasset with h | h <;> simp [h]
  unfold SpawnActors
  rw [hguard]
  simp only [Bool.false_eq_true, if_false]
  by_cases hov : (OverlappingActorsOf E S).length = 0
  · refine ⟨{ (S.Self.SpawnedActors.foldl ClearStep S.World) with
        Clock := S.World.Clock + 1,
        Queries := S.World.Queries ++ [OverlapQueryOf S] },
      hcl.2.2.2, rfl, Or.inl ⟨List.length_eq_zero.mp hov, ?_, hcl.2.1⟩⟩
    unfold OverlappingActorsOf at hov
    simp only [ClearSpawnedActors, OverlapMultiByChannel, hcl.1, hcl.2.2.1, hov, if_true,
      OverlapQueryOf]
  · refine ⟨({ (S.Self.SpawnedActors.foldl ClearStep S.World) with
        Clock := S.World.Clock + 1,
        Queries := S.World.Queries ++ [OverlapQueryOf S] } : UWorld).Log
        (LogLine.FoundOverlapping (OverlappingActorsOf E S).length),
      hcl.2.2.2, rfl, Or.inr ⟨fun h => hov (by rw [h]; rfl), ?_, ?_⟩⟩
    · unfold OverlappingActorsOf at hov
      simp only [ClearSpawnedActors, OverlapMultiByChannel, hcl.1, hcl.2.2.1, hov, if_false,
        OverlapQueryOf, OverlappingActorsOf]
    · simp only [UWorld.Log, hcl.2.1]

/-- C3: with a spawn asset set, if the overlap query yields no non-null actor,
`SpawnActors` logs the no-overlap warning, leaves the spawn list empty, spawns
nothing, and the overlap query is the only query it issues: no raycast. -/
theorem SpawnActors_no_candidates (E : Engine) (S : State)
    (hasset : S.Self.ActorToSpawn.isSome = true ∨ S.Self.StaticMeshToSpawn.isSome = true)
    (hnull : ∀ P ∈ E.OverlapMultiByChannel S.World.Clock S.Self.BoxCenter S.Self.BoxRotation
      S.Self.BoxExtent ⟨true, []⟩, P = none) :
    (SpawnActors E S).Self.SpawnedActors = [] ∧
    (SpawnActors E S).World.Output = S.World.Output ++ [LogLine.NoOverlappingActors] ∧
    (SpawnActors E S).World.Queries = S.World.Queries ++ [OverlapQueryOf S] ∧
    (∀ St En Pa, Query.LineTrace St En Pa ∉ [OverlapQueryOf S]) ∧
    (SpawnActors E S).World.Actors.length = S.World.Actors.length := by
  have hempty : OverlappingActorsOf E S = [] := UniqueActors_all_null _ [] hnull
  obtain ⟨W0, hA, hQ, h⟩ := SpawnActors_with_asset E S hasset
  rcases h with ⟨_, hS, hO⟩ | ⟨hne, _, _⟩
  · rw [hS]
    refine ⟨rfl, ?_, hQ, ?_, hA⟩
    · show W0.Output ++ [LogLine.NoOverlappingActors] = _
      rw [hO]
    · intro St En Pa hmem
      simp [OverlapQueryOf] at hmem
  · exact absurd hempty hne

theorem FanLoop_queries (E : Engine) (Location : FVector) :
    ∀ (Remaining I HitCount : Nat) (TotalDistance : ℚ) (W : UWorld),
      ∃ Rest, (FanLoop E Location Remaining I HitCount TotalDistance W).2.2.Queries =
        W.Queries ++ Rest := by
  intro Remaining
  induction Remaining with
  | zero => intro I HitCount TotalDistance W; exact ⟨[], by simp [FanLoop]⟩
  | succ n ih =>
    intro I HitCount TotalDistance W
    cases h : E.LineTraceSingleByChannel W.Clock Location (FanEnd E Location I) ⟨true, []⟩ with
    | none =>
      obtain ⟨Rest, hR⟩ := ih (I + 1) HitCount TotalDistance
        { W with Clock := W.Clock + 1,
                 Queries := W.Queries ++ [Query.LineTrace Location (FanEnd E Location I) ⟨true, []⟩] }
      refine ⟨Query.LineTrace Location (FanEnd E Location I) ⟨true, []⟩ :: Rest, ?_⟩
      simp only [FanLoop, h, LineTrace_value, LineTrace_world]
      rw [hR]
      simp
    | some Hit =>
      obtain ⟨Rest, hR⟩ := ih (I + 1) (HitCount + 1) (TotalDistance + Hit.Distance)
        { W with Clock := W.Clock + 1,
                 Queries := W.Queries ++ [Query.LineTrace Location (FanEnd E Location I) ⟨true, []⟩] }
      refine ⟨Query.LineTrace Location (FanEnd E Location I) ⟨true, []⟩ :: Rest, ?_⟩
      simp only [FanLoop, h, LineTrace_value, LineTrace_world]
      rw [hR]
      simp

theorem SpawnAttempt_queries (E : Engine) (Ov : List Nat) (S : State) :
    ∃ Rest, (SpawnAttempt E Ov S).World.Queries = S.World.Queries ++ Rest := by
  obtain ⟨Fan, hFan⟩ := FanLoop_queries E (SampleWorldPos E S).1 NumRays 0 0 0
    (SampleWorldPos E S).2
  have hC : (CalculateGeometryComplexity E (SampleWorldPos E S).1 Ov
      (SampleWorldPos E S).2).2.Queries = S.World.Queries ++ Fan := hFan
  by_cases hpass : (FRand E (CalculateGeometryComplexity E (SampleWorldPos E S).1 Ov
        (SampleWorldPos E S).2).2).1 >
      SpawnChance S.Self (CalculateGeometryComplexity E (SampleWorldPos E S).1 Ov
        (SampleWorldPos E S).2).1
  · refine ⟨Fan, ?_⟩
    unfold SpawnAttempt
    dsimp only
    rw [if_pos hpass]
    exact hC
  · refine ⟨Fan ++ [Query.LineTrace (StartTrace S.Self.BoxExtent (SampleWorldPos E S).1)
          (EndTrace S.Self.BoxExtent (SampleWorldPos E S).1) ⟨true, S.Self.SpawnedActors⟩], ?_⟩
    rw [SpawnAttempt_passed E Ov S hpass, hC, List.append_assoc]

theorem SpawnLoop_queries (E : Engine) (Ov : List Nat) :
    ∀ (N : Nat) (S : State),
      ∃ Rest, (SpawnLoop E Ov N S).World.Queries = S.World.Queries ++ Rest := by
  intro N
  induction N with
  | zero => intro S; exact ⟨[], by simp [SpawnLoop]⟩
  | succ N ih =>
    intro S
    obtain ⟨R1, h1⟩ := SpawnAttempt_queries E Ov S
    obtain ⟨R2, h2⟩ := ih (SpawnAttempt E Ov S)
    exact ⟨R1 ++ R2, by simp only [SpawnLoop]; rw [h2, h1, List.append_assoc]⟩

/-- C2, as amended: `SpawnActors` validates nothing. With a spawn asset set,
whatever `SpawnDensity`, `IntersectionBias` and `ScaleRange` are, it first issues
the overlap query; with `SpawnDensity < 1` that is its only query, nothing is
spawned, and it ends with the no-overlap warning or with the line `Spawned 0`. -/
theorem SpawnActors_no_validation (E : Engine) (S : State)
    (hasset : S.Self.ActorToSpawn.isSome = true ∨ S.Self.StaticMeshToSpawn.isSome = true) :
    (∃ Rest, (SpawnActors E S).World.Queries = S.World.Queries ++ OverlapQueryOf S :: Rest) ∧
    (S.Self.SpawnDensity < 1 →
      (SpawnActors E S).World.Queries = S.World.Queries ++ [OverlapQueryOf S] ∧
      (SpawnActors E S).Self.SpawnedActors = [] ∧
      (SpawnActors E S).World.Actors.length = S.World.Actors.length ∧
      ((SpawnActors E S).World.Output = S.World.Output ++ [LogLine.NoOverlappingActors] ∨
        (SpawnActors E S).World.Output = S.World.Output ++
          [LogLine.FoundOverlapping (OverlappingActorsOf E S).length, LogLine.Spawned 0])) := by
  obtain ⟨W0, hA, hQ, h⟩ := SpawnActors_with_asset E S hasset
  rcases h with ⟨_, hS, hO⟩ | ⟨_, hS, hO⟩
  · rw [hS]
    refine ⟨⟨[], hQ⟩, fun _ => ⟨hQ, rfl, hA, Or.inl ?_⟩⟩
    show W0.Output ++ [LogLine.NoOverlappingActors] = _
    rw [hO]
  · rw [hS]
    constructor
    · obtain ⟨Rest, hR⟩ := SpawnLoop_queries E (OverlappingActorsOf E S)
        S.Self.SpawnDensity.toNat ⟨{ S.Self with SpawnedActors := [] }, W0⟩
      refine ⟨Rest, ?_⟩
      show (SpawnLoop E (OverlappingActorsOf E S) S.Self.SpawnDensity.toNat
        ⟨{ S.Self with SpawnedActors := [] }, W0⟩).World.Queries = _
      rw [hR]
      show W0.Queries ++ Rest = _
      rw [hQ]
      simp
    · intro hd
      have hn : S.Self.SpawnDensity.toNat = 0 := by omega
      rw [hn]
      refine ⟨hQ, rfl, hA, Or.inr ?_⟩
      show W0.Output ++ [LogLine.Spawned 0] = _
      rw [hO]
      simp

/-- C2, counterexample: two configurations that the specification calls invalid.
With attempt count `0`, `SpawnActors` issues the overlap query and reports a
normal run (`Spawned 0`). With bias `2` and scale range `[2, 1]` it issues the
overlap query and nine raycasts and spawns an actor of scale `2`. -/
theorem SpawnActors_accepts_invalid_config :
    SpecInvalidConfig ZeroDensityProjector = true ∧
    (SpawnActors (ExampleEngine AlwaysHit 0 [some 7]) ⟨ZeroDensityProjector, EmptyWorld⟩).World.Queries
      = [Query.Overlap ⟨0, 0, 0⟩ ⟨0, 0, 0⟩ ⟨200, 200, 200⟩ ⟨true, []⟩] ∧
    (SpawnActors (ExampleEngine AlwaysHit 0 [some 7]) ⟨ZeroDensityProjector, EmptyWorld⟩).World.Output
      = [LogLine.FoundOverlapping 1, LogLine.Spawned 0] ∧
    SpecInvalidConfig OutOfRangeProjector = true ∧
    (SpawnActors (ExampleEngine AlwaysHit 0 [some 7])
        ⟨OutOfRangeProjector, EmptyWorld⟩).World.Queries.length = 10 ∧
    (SpawnActors (ExampleEngine AlwaysHit 0 [some 7])
        ⟨OutOfRangeProjector, EmptyWorld⟩).Self.SpawnedActors = [some 0] ∧
    (SpawnActors (ExampleEngine AlwaysHit 0 [some 7])
        ⟨OutOfRangeProjector, EmptyWorld⟩).World.Actors =
      [⟨⟨0, 0, 1⟩, ⟨0, -360, -360⟩, ⟨2, 2, 2⟩, false⟩] ∧
    (SpawnActors (ExampleEngine AlwaysHit 0 [some 7])
        ⟨OutOfRangeProjector, EmptyWorld⟩).World.Output =
      [LogLine.FoundOverlapping 1, LogLine.Spawned 1] := by
  refine ⟨?_, ?_, ?_, ?_, ?_, ?_, ?_, ?_⟩
  · norm_num [SpecInvalidConfig, ZeroDensityProjector, DefaultProjector]
  · norm_num [SpawnActors, ZeroDensityProjector, DefaultProjector, EmptyWorld, ExampleEngine,
      ClearSpawnedActors, OverlapMultiByChannel, UniqueActors, SpawnLoop, UWorld.Log]
  · norm_num [SpawnActors, ZeroDensityProjector, DefaultProjector, EmptyWorld, ExampleEngine,
      ClearSpawnedActors, OverlapMultiByChannel, UniqueActors, SpawnLoop, UWorld.Log]
  · norm_num [SpecInvalidConfig, OutOfRangeProjector, DefaultProjector]
  all_goals
    norm_num [SpawnActors, OutOfRangeProjector, DefaultProjector, EmptyWorld, ExampleEngine,
      AlwaysHit, ClearSpawnedActors, OverlapMultiByChannel, UniqueActors, SpawnLoop, SpawnAttempt,
      UWorld.Log, SpawnChance, FMath.Lerp, CalculateGeometryComplexity, FanLoop, NumRays,
      ComplexityScore, FMath.Clamp, TraceDistance, FRand, LineTraceSingleByChannel,
      SampleWorldPos, RandRange, PlaceOnHit, IsValidSpawnLocation, IsValidSpawnLocationLoop,
      SpawnRotation, SpawnOption, SpawnActor, UWorld.SetActorScale3D, StartTrace, EndTrace,
      FVector.add, FVector.sub, FVector.scale, FVector.splat, FanEnd]

/-! ## Minimum spacing -/

/-- The squared comparison of `DistanceLess` is the comparison of the Euclidean
distance with `M`. -/
theorem DistanceLess_iff (A B : FVector) (M : ℚ) :
    FVector.DistanceLess A B M = true ↔
      Real.sqrt ((FVector.DistSquared A B : ℚ) : ℝ) < (M : ℝ) := by
  have hd : (0 : ℚ) ≤ FVector.DistSquared A B := by
    unfold FVector.DistSquared
    nlinarith [mul_self_nonneg (B.X - A.X), mul_self_nonneg (B.Y - A.Y),
      mul_self_nonneg (B.Z - A.Z)]
  unfold FVector.DistanceLess
  rw [decide_eq_true_iff]
  constructor
  · rintro ⟨hM, hlt⟩
    have hM2 : (0 : ℝ) < (M : ℝ) := by exact_mod_cast hM
    rw [Real.sqrt_lt' hM2]
    have : ((FVector.DistSquared A B : ℚ) : ℝ) < ((M * M : ℚ) : ℝ) := by exact_mod_cast hlt
    rw [pow_two]
    exact_mod_cast this
  · intro h
    have hM2 : (0 : ℝ) < (M : ℝ) := lt_of_le_of_lt (Real.sqrt_nonneg _) h
    have hM : (0 : ℚ) < M := by exact_mod_cast hM2
    refine ⟨hM, ?_⟩
    rw [Real.sqrt_lt' hM2, pow_two] at h
    exact_mod_cast h

theorem DistSquared_comm (A B : FVector) : FVector.DistSquared A B = FVector.DistSquared B A := by
  unfold FVector.DistSquared; ring

theorem World_congr (W W2 : UWorld) (h : W2.Actors = W.Actors) (I : Nat) :
    W2.IsValid (some I) = W.IsValid (some I) ∧ W2.GetActorLocation I = W.GetActorLocation I := by
  simp only [UWorld.IsValid, UWorld.GetActorLocation, h, and_self]

theorem World_extend (W W2 : UWorld) (A : AActor) (h : W2.Actors = W.Actors ++ [A]) :
    (∀ I, W.IsValid (some I) = true →
      W2.IsValid (some I) = true ∧ W2.GetActorLocation I = W.GetActorLocation I) ∧
    W2.IsValid (some W.Actors.length) = !A.bDestroyed ∧
    W2.GetActorLocation W.Actors.length = A.Location := by
  refine ⟨?_, ?_, ?_⟩
  · intro I hI
    have hlt := IsValid_lt W I hI
    have hget : W2.Actors[I]? = W.Actors[I]? := by
      rw [h, List.getElem?_append_left hlt]
    constructor
    · simp only [UWorld.IsValid, hget] at hI ⊢
      exact hI
    · simp only [UWorld.GetActorLocation, hget]
  · simp only [UWorld.IsValid, h, getElem?_last]
  · simp only [UWorld.GetActorLocation, h, getElem?_last]

theorem IsValidSpawnLocationLoop_true (W : UWorld) (M : ℚ) (Loc : FVector) :
    ∀ (Ps : List ActorPtr), IsValidSpawnLocationLoop W M Loc Ps = true →
      ∀ I, some I ∈ Ps → W.IsValid (some I) = true →
        FVector.DistanceLess Loc (W.GetActorLocation I) M = false := by
  intro Ps
  induction Ps with
  | nil => intro _ I hmem; simp at hmem
  | cons P Rest ih =>
    intro hloop I hmem hI
    cases P with
    | none =>
      simp only [IsValidSpawnLocationLoop] at hloop
      rcases List.mem_cons.mp hmem with h1 | h1
      · exact Option.noConfusion h1
      · exact ih hloop I h1 hI
    | some J =>
      simp only [IsValidSpawnLocationLoop] at hloop
      by_cases hJ : W.IsValid (some J) = true
      · rw [if_pos hJ] at hloop
        by_cases hD : FVector.DistanceLess Loc (W.GetActorLocation J) M = true
        · rw [if_pos hD] at hloop
          exact Bool.noConfusion hloop
        · rw [if_neg hD] at hloop
          rcases List.mem_cons.mp hmem with h1 | h1
          · have : I = J := Option.some.inj h1
            subst this
            simpa using hD
          · exact ih hloop I h1 hI
      · rw [if_neg hJ] at hloop
        rcases List.mem_cons.mp hmem with h1 | h1
        · have : I = J := Option.some.inj h1
          subst this
          exact absurd hI hJ
        · exact ih hloop I h1 hI

/-- The invariant of the spawn loop behind the spacing property: every entry of
the spawn list is a live actor, and a later entry is never closer than `M` to an
earlier one. -/
theorem SpawnAttempt_spacing (E : Engine) (Ov : List Nat) (M : ℚ) (T : State)
    (h : T.Self.MinSpawnDistance = M ∧
      (∀ P ∈ T.Self.SpawnedActors, ∃ I, P = some I ∧ T.World.IsValid (some I) = true) ∧
      List.Pairwise (fun P Q => ∃ I J, P = some I ∧ Q = some J ∧
        FVector.DistanceLess (T.World.GetActorLocation J) (T.World.GetActorLocation I) M = false)
        T.Self.SpawnedActors) :
    (SpawnAttempt E Ov T).Self.MinSpawnDistance = M ∧
      (∀ P ∈ (SpawnAttempt E Ov T).Self.SpawnedActors,
        ∃ I, P = some I ∧ (SpawnAttempt E Ov T).World.IsValid (some I) = true) ∧
      List.Pairwise (fun P Q => ∃ I J, P = some I ∧ Q = some J ∧
        FVector.DistanceLess ((SpawnAttempt E Ov T).World.GetActorLocation J)
          ((SpawnAttempt E Ov T).World.GetActorLocation I) M = false)
        (SpawnAttempt E Ov T).Self.SpawnedActors := by
  obtain ⟨hM, hvalid, hpair⟩ := h
  rcases SpawnAttempt_cases E Ov T with ⟨hS, hA⟩ | ⟨Hit, C, Pos, N2, N3, N4, _, hloop, hS, hA⟩
  · have hc := World_congr T.World (SpawnAttempt E Ov T).World hA
    rw [hS]
    refine ⟨hM, ?_, ?_⟩
    · intro P hP
      obtain ⟨I, hI, hv⟩ := hvalid P hP
      exact ⟨I, hI, by rw [(hc I).1]; exact hv⟩
    · refine hpair.imp ?_
      rintro P Q ⟨I, J, hP, hQ, hd⟩
      exact ⟨I, J, hP, hQ, by rw [(hc I).2, (hc J).2]; exact hd⟩
  · have he := World_extend T.World (SpawnAttempt E Ov T).World _ hA
    rw [hS]
    refine ⟨hM, ?_, ?_⟩
    · intro P hP
      rcases List.mem_append.mp hP with h1 | h1
      · obtain ⟨I, hI, hv⟩ := hvalid P h1
        exact ⟨I, hI, (he.1 I hv).1⟩
      · rw [List.mem_singleton] at h1
        exact ⟨_, h1, by rw [he.2.1]; rfl⟩
    · show List.Pairwise _ (T.Self.SpawnedActors ++ [some T.World.Actors.length])
      rw [List.pairwise_append]
      refine ⟨?_, List.pairwise_singleton _ _, ?_⟩
      · refine List.Pairwise.imp_of_mem ?_ hpair
        rintro P Q hP hQ ⟨I, J, hPI, hQJ, hd⟩
        obtain ⟨I2, hI2, hvI⟩ := hvalid P hP
        obtain ⟨J2, hJ2, hvJ⟩ := hvalid Q hQ
        have e1 : I2 = I := Option.some.inj (hI2.symm.trans hPI)
        have e2 : J2 = J := Option.some.inj (hJ2.symm.trans hQJ)
        subst e1 e2
        exact ⟨I2, J2, hPI, hQJ, by rw [(he.1 I2 hvI).2, (he.1 J2 hvJ).2]; exact hd⟩
      · intro P hP Q hQ
        rw [List.mem_singleton] at hQ
        obtain ⟨I, hI, hvI⟩ := hvalid P hP
        refine ⟨I, T.World.Actors.length, hI, hQ, ?_⟩
        rw [he.2.2, (he.1 I hvI).2]
        rw [hM] at hloop
        exact IsValidSpawnLocationLoop_true T.World M _ _ hloop I (hI ▸ hP) hvI

theorem FirstRun_result :
    FirstRun.Self.SpawnedActors = [some 0, some 1] ∧
    FirstRun.World.Actors =
      [⟨⟨0, 0, 1⟩, ⟨0, -360, -360⟩, ⟨1 / 2, 1 / 2, 1 / 2⟩, false⟩,
        ⟨⟨0, 0, 1⟩, ⟨0, -360, -360⟩, ⟨1 / 2, 1 / 2, 1 / 2⟩, false⟩] := by
  constructor <;>
    norm_num [FirstRun, SpawnActors, ZeroSpacingProjector, DefaultProjector, EmptyWorld,
      ExampleEngine, AlwaysHit, ClearSpawnedActors, OverlapMultiByChannel, UniqueActors,
      SpawnLoop, SpawnAttempt, UWorld.Log, SpawnChance, FMath.Lerp, CalculateGeometryComplexity,
      FanLoop, NumRays, ComplexityScore, FMath.Clamp, TraceDistance, FRand,
      LineTraceSingleByChannel, SampleWorldPos, RandRange, PlaceOnHit, IsValidSpawnLocation,
      IsValidSpawnLocationLoop, SpawnRotation, SpawnOption, SpawnActor, UWorld.SetActorScale3D,
      UWorld.IsValid, UWorld.GetActorLocation, FVector.DistanceLess, FVector.DistSquared,
      StartTrace, EndTrace, FVector.add, FVector.sub, FVector.scale, FVector.splat, FanEnd]

theorem RandRange_bounds (Min Max U : ℚ) (h : Min ≤ Max) (h0 : 0 ≤ U) (h1 : U ≤ 1) :
    Min ≤ Min + (Max - Min) * U ∧ Min + (Max - Min) * U ≤ Max := by
  have hd : 0 ≤ Max - Min := by linarith
  constructor
  · nlinarith [mul_nonneg hd h0]
  · nlinarith [mul_le_mul_of_nonneg_left h1 hd]

/-- The invariant of the spawn loop behind the transform property: every entry
of the spawn list is an actor created since the call began (index at least `B`)
whose transform is as the specification describes. -/
theorem SpawnAttempt_transforms (E : Engine) (Ov : List Nat) (Self0 : ADecalInstanceProjector)
    (B : Nat) (T : State)
    (hX : Self0.ScaleRange.X ≤ Self0.ScaleRange.Y)
    (hRY : 0 ≤ Self0.RotationRange.Y) (hRZ : 0 ≤ Self0.RotationRange.Z)
    (hU : ∀ N, 0 ≤ E.FRand N ∧ E.FRand N ≤ 1)
    (h : (T.Self.ScaleRange = Self0.ScaleRange ∧ T.Self.RotationRange = Self0.RotationRange ∧
        T.Self.SurfaceOffset = Self0.SurfaceOffset ∧ T.Self.BoxExtent = Self0.BoxExtent) ∧
      B ≤ T.World.Actors.length ∧
      (∀ P ∈ T.Self.SpawnedActors, ∃ I A, P = some I ∧ B ≤ I ∧
        T.World.Actors[I]? = some A ∧ SpecGoodTransform E Self0 A)) :
    ((SpawnAttempt E Ov T).Self.ScaleRange = Self0.ScaleRange ∧
        (SpawnAttempt E Ov T).Self.RotationRange = Self0.RotationRange ∧
        (SpawnAttempt E Ov T).Self.SurfaceOffset = Self0.SurfaceOffset ∧
        (SpawnAttempt E Ov T).Self.BoxExtent = Self0.BoxExtent) ∧
      B ≤ (SpawnAttempt E Ov T).World.Actors.length ∧
      (∀ P ∈ (SpawnAttempt E Ov T).Self.SpawnedActors, ∃ I A, P = some I ∧ B ≤ I ∧
        (SpawnAttempt E Ov T).World.Actors[I]? = some A ∧ SpecGoodTransform E Self0 A) := by
  obtain ⟨⟨hc1, hc2, hc3, hc4⟩, hB, hall⟩ := h
  rcases SpawnAttempt_cases E Ov T with ⟨hS, hA⟩ | ⟨Hit, C, Pos, N2, N3, N4, hHit, _, hS, hA⟩
  · rw [hS, hA]
    exact ⟨⟨hc1, hc2, hc3, hc4⟩, hB, hall⟩
  · rw [hS, hA]
    refine ⟨⟨hc1, hc2, hc3, hc4⟩, by simp only [List.length_append]; omega, ?_⟩
    intro P hP
    rcases List.mem_append.mp hP with h1 | h1
    · obtain ⟨I, A, hI, hBI, hget, hgood⟩ := hall P h1
      have hlt : I < T.World.Actors.length := by
        by_contra hc
        rw [List.getElem?_eq_none (by omega)] at hget
        exact Option.noConfusion hget
      exact ⟨I, A, hI, hBI, by rw [List.getElem?_append_left hlt]; exact hget, hgood⟩
    · rw [List.mem_singleton] at h1
      refine ⟨_, _, h1, hB, getElem?_last _ _, ?_⟩
      rw [hc4] at hHit
      rw [hc1, hc2, hc3]
      have hy := RandRange_bounds (-Self0.RotationRange.Y) Self0.RotationRange.Y (E.FRand N2)
        (by linarith) (hU N2).1 (hU N2).2
      have hz := RandRange_bounds (-Self0.RotationRange.Z) Self0.RotationRange.Z (E.FRand N3)
        (by linarith) (hU N3).1 (hU N3).2
      have hs := RandRange_bounds Self0.ScaleRange.X Self0.ScaleRange.Y (E.FRand N4)
        hX (hU N4).1 (hU N4).2
      exact ⟨⟨_, rfl, hs⟩, hy, hz, ⟨Hit, C, Pos, _, hHit, rfl, rfl⟩⟩

/-- C3 at a concrete input: the default projector with an asset, and an overlap
query whose only result has no actor. -/
theorem SpawnActors_no_candidates_witness :
    ((DefaultProjector (some 0) []).ActorToSpawn.isSome = true ∨
      (DefaultProjector (some 0) []).StaticMeshToSpawn.isSome = true) ∧
    (∀ P ∈ (ExampleEngine AlwaysHit 0 [none]).OverlapMultiByChannel EmptyWorld.Clock
      (DefaultProjector (some 0) []).BoxCenter (DefaultProjector (some 0) []).BoxRotation
      (DefaultProjector (some 0) []).BoxExtent ⟨true, []⟩, P = none) ∧
    (SpawnActors (ExampleEngine AlwaysHit 0 [none])
      ⟨DefaultProjector (some 0) [], EmptyWorld⟩).Self.SpawnedActors = [] ∧
    (SpawnActors (ExampleEngine AlwaysHit 0 [none])
      ⟨DefaultProjector (some 0) [], EmptyWorld⟩).World.Output
        = EmptyWorld.Output ++ [LogLine.NoOverlappingActors] ∧
    (SpawnActors (ExampleEngine AlwaysHit 0 [none])
      ⟨DefaultProjector (some 0) [], EmptyWorld⟩).World.Queries
        = EmptyWorld.Queries ++ [OverlapQueryOf ⟨DefaultProjector (some 0) [], EmptyWorld⟩] :=
  have h := SpawnActors_no_candidates (ExampleEngine AlwaysHit 0 [none])
    ⟨DefaultProjector (some 0) [], EmptyWorld⟩ (Or.inl rfl)
    (fun P hP => by simpa [ExampleEngine] using hP)
  ⟨Or.inl rfl, fun P hP => by simpa [ExampleEngine] using hP, h.1, h.2.1, h.2.2.1⟩

/-- C2, as amended, at a concrete input: the default projector with an attempt
count of `0`. -/
theorem SpawnActors_no_validation_witness :
    (ZeroDensityProjector.ActorToSpawn.isSome = true ∨
      ZeroDensityProjector.StaticMeshToSpawn.isSome = true) ∧
    ZeroDensityProjector.SpawnDensity < 1 ∧
    (SpawnActors (ExampleEngine AlwaysHit 0 [some 7]) ⟨ZeroDensityProjector, EmptyWorld⟩).World.Queries
      = EmptyWorld.Queries ++ [OverlapQueryOf ⟨ZeroDensityProjector, EmptyWorld⟩] ∧
    (SpawnActors (ExampleEngine AlwaysHit 0 [some 7])
      ⟨ZeroDensityProjector, EmptyWorld⟩).Self.SpawnedActors = [] :=
  have hd : ZeroDensityProjector.SpawnDensity < 1 := by
    norm_num [ZeroDensityProjector]
  have h := (SpawnActors_no_validation (ExampleEngine AlwaysHit 0 [some 7])
    ⟨ZeroDensityProjector, EmptyWorld⟩ (Or.inl rfl)).2 hd
  ⟨Or.inl rfl, hd, h.1, h.2.1⟩

/-- C9 at a concrete input: a spawn list that names actor 0 twice, a null
pointer and actor 1, in a world where both actors are live. -/
theorem ClearSpawnedActors_spec_witness :
    some 0 ∈ (DefaultProjector (some 0) [some 0, none, some 1, some 0]).SpawnedActors ∧
    TwoActorWorld.IsValid (some 0) = true ∧
    (ClearSpawnedActors
      ⟨DefaultProjector (some 0) [some 0, none, some 1, some 0], TwoActorWorld⟩).Self.SpawnedActors
        = [] ∧
    (ClearSpawnedActors
      ⟨DefaultProjector (some 0) [some 0, none, some 1, some 0], TwoActorWorld⟩).World.IsDestroyed 0
        = true ∧
    (ClearSpawnedActors
      ⟨DefaultProjector (some 0) [some 0, none, some 1, some 0], TwoActorWorld⟩).World.IsValid
        (some 0) = false :=
  have hm : some 0 ∈ (DefaultProjector (some 0) [some 0, none, some 1, some 0]).SpawnedActors :=
    List.mem_cons_self _ _
  have hv : TwoActorWorld.IsValid (some 0) = true := by
    simp [UWorld.IsValid, TwoActorWorld]
  have h := ClearSpawnedActors_spec
    ⟨DefaultProjector (some 0) [some 0, none, some 1, some 0], TwoActorWorld⟩
  ⟨hm, hv, h.1, (h.2.1 0 hm hv).1, (h.2.1 0 hm hv).2⟩

end DecalInstancer
